import Mathlib

/-! # Scan-bridge readers: `HiveJNIReader` and `RCBinaryJNIReader`

A shallow embedding of `be/src/vec/exec/format/hive/hive_jni_reader.cpp` and
`be/src/vec/exec/format/rcbinary/rcbinary_jni_reader.cpp`, followed by theorems
about the embedded functions.

Conventions of the embedding:

* a `rapidjson::Value` is a tree `rapidjson.Value`; every accessor that asserts
  in rapidjson (`operator[]` on a missing member or a non-object, `GetInt` on a
  non-int, an index past the end, ...) returns `none`, and a function that
  reaches such an access returns `none`;
* `std::map<String, String>` is an association list with unique keys, with
  `std::map::insert` semantics (an existing key is never overwritten);
* enum values that are printed with `std::to_string` or read from the wire are
  integers;
* a `std::string` built from the `const char*` of `GetString()` holds the
  characters before the first NUL character (`std_string`);
* the connector `JniConnector` is outside the two files: the reader functions
  that call it are embedded over an arbitrary connector behaviour, by explicit
  state passing, and the calls made to the connector are recorded in order.
-/

namespace doris

/-! ## rapidjson values -/

namespace rapidjson

/-- A rapidjson DOM value. `int` holds an integral number, `real` any other
number (kept as its text; no accessor used by the readers accepts it). -/
inductive Value where
  | null
  | bool (b : Bool)
  | int (n : Int)
  | real (text : String)
  | string (s : String)
  | array (elements : List Value)
  | object (members : List (String × Value))

namespace Value

/-- The method `GetInt()`: defined on numbers that fit a signed 32-bit int. -/
def GetInt : Value → Option Int
  | int n => if -2147483648 ≤ n ∧ n ≤ 2147483647 then some n else none
  | _ => none

/-- The method `GetString()`: defined on strings only. It returns the
`const char*` to the string's buffer, here the whole content of the string; a
caller that builds a `std::string` from the pointer applies `std_string`. -/
def GetString : Value → Option String
  | string s => some s
  | _ => none

/-- The method `IsArray()`. -/
def IsArray : Value → Bool
  | array _ => true
  | _ => false

/-- Member search of `FindMember`: the first member with the given name. -/
def findMember (name : String) : List (String × Value) → Option Value
  | [] => none
  | (k, v) :: rest => if k = name then some v else findMember name rest

/-- The call `v["name"]`: defined when `v` is an object that has the member. -/
def member (v : Value) (name : String) : Option Value :=
  match v with
  | object ms => findMember name ms
  | _ => none

/-- The call `v[i]`: defined when `v` is an array and `i` is below its size. -/
def index (v : Value) (i : Nat) : Option Value :=
  match v with
  | array xs => xs[i]?
  | _ => none

/-- The elements that a loop `for (i = 0; i < v.Size(); i++) ... v[i]` visits:
defined when `v` is an array (`Size()` asserts it). -/
def elements : Value → Option (List Value)
  | array xs => some xs
  | _ => none

/-- The search of `findMember`, returning the member together with the evidence
that it is a proper part of the member list (used to justify the recursion of
the converters). -/
def findMemberDec (name : String) :
    (ms : List (String × Value)) → Option {w : Value // sizeOf w < sizeOf ms}
  | [] => none
  | (k, v) :: rest =>
    if k = name then some ⟨v, by simp; omega⟩
    else
      match findMemberDec name rest with
      | some ⟨w, h⟩ => some ⟨w, by simp; omega⟩
      | none => none

/-- The call `v["name"]` together with the evidence that the member is a
proper part of `v`. -/
def memberDec (v : Value) (name : String) : Option {w : Value // sizeOf w < sizeOf v} :=
  match v with
  | object ms =>
    match findMemberDec name ms with
    | some ⟨w, h⟩ => some ⟨w, by simp; omega⟩
    | none => none
  | _ => none

/-- The call `v[i]` together with the evidence that the element is a proper
part of `v`. -/
def indexDec (v : Value) (i : Nat) : Option {w : Value // sizeOf w < sizeOf v} :=
  match v with
  | array xs =>
    match h : xs[i]? with
    | some w => some ⟨w, by
        have := List.sizeOf_lt_of_mem (List.getElem?_mem h)
        simp; omega⟩
    | none => none
  | _ => none

/-- The elements of an array together with the evidence that they are a proper
part of it. -/
def elementsDec (v : Value) : Option {xs : List Value // sizeOf xs < sizeOf v} :=
  match v with
  | array xs => some ⟨xs, by simp⟩
  | _ => none

end Value
end rapidjson

open rapidjson

/-! ## C strings -/

/-- The construction `std::string(const char*)` from the pointer that
`GetString()` returns, explicit in `std::string(child["name"].GetString())` and
implicit in `col_names->push_back(column_schema["name"].GetString())`: the
characters before the first NUL character of the buffer. -/
def std_string (c_str : String) : String :=
  String.mk (c_str.data.takeWhile (fun ch => ch ≠ Char.ofNat 0))

/-- Whether a string has no embedded NUL character. -/
def hasNoNul (s : String) : Bool :=
  s.data.all (fun ch => ch ≠ Char.ofNat 0)

/-! ## Type tags and native types -/

/-- Modelled from the spec: the wire protocol's integer type tags
(`TPrimitiveType::type`, generated from the Thrift IDL, which is not under
`src/`). An entry's `type` member is cast to this enum, so a tag is an integer;
the tags named in the two converters are listed below with the ordinals of the
Thrift enum. The theorems use only that they are pairwise distinct. -/
abbrev TPrimitiveType := Int

namespace TPrimitiveType

def BOOLEAN : TPrimitiveType := 2
def TINYINT : TPrimitiveType := 3
def SMALLINT : TPrimitiveType := 4
def INT : TPrimitiveType := 5
def BIGINT : TPrimitiveType := 6
def FLOAT : TPrimitiveType := 7
def DOUBLE : TPrimitiveType := 8
def DATE : TPrimitiveType := 9
def DATETIME : TPrimitiveType := 10
def BINARY : TPrimitiveType := 11
def CHAR : TPrimitiveType := 13
def LARGEINT : TPrimitiveType := 14
def VARCHAR : TPrimitiveType := 15
def DECIMALV2 : TPrimitiveType := 17
def ARRAY : TPrimitiveType := 20
def MAP : TPrimitiveType := 21
def STRUCT : TPrimitiveType := 22
def STRING : TPrimitiveType := 23
def DATEV2 : TPrimitiveType := 26
def DATETIMEV2 : TPrimitiveType := 27
def DECIMAL32 : TPrimitiveType := 29
def DECIMAL64 : TPrimitiveType := 30
def DECIMAL128I : TPrimitiveType := 31

end TPrimitiveType

/-- Modelled from the spec: the kinds of the native type model (`PrimitiveType`
of `runtime/define_primitive_type.h`, not under `src/`): the scalar kinds, the
decimal kind, the three container kinds and the INVALID sentinel. -/
inductive PrimitiveType where
  | INVALID_TYPE
  | TYPE_BOOLEAN
  | TYPE_TINYINT
  | TYPE_SMALLINT
  | TYPE_INT
  | TYPE_BIGINT
  | TYPE_LARGEINT
  | TYPE_FLOAT
  | TYPE_DOUBLE
  | TYPE_DATE
  | TYPE_DATETIME
  | TYPE_BINARY
  | TYPE_CHAR
  | TYPE_VARCHAR
  | TYPE_STRING
  | TYPE_DATEV2
  | TYPE_DATETIMEV2
  | TYPE_DECIMAL
  | TYPE_ARRAY
  | TYPE_MAP
  | TYPE_STRUCT
  deriving DecidableEq, Repr

/-- Modelled from the spec: `thrift_to_type` (`runtime/primitive_type.cpp`, not
under `src/`): each scalar tag maps 1:1 to the native scalar of the same name;
a tag with no native scalar maps to the INVALID sentinel. -/
def thrift_to_type (ttype : TPrimitiveType) : PrimitiveType :=
  if ttype = TPrimitiveType.BOOLEAN then .TYPE_BOOLEAN
  else if ttype = TPrimitiveType.TINYINT then .TYPE_TINYINT
  else if ttype = TPrimitiveType.SMALLINT then .TYPE_SMALLINT
  else if ttype = TPrimitiveType.INT then .TYPE_INT
  else if ttype = TPrimitiveType.BIGINT then .TYPE_BIGINT
  else if ttype = TPrimitiveType.LARGEINT then .TYPE_LARGEINT
  else if ttype = TPrimitiveType.FLOAT then .TYPE_FLOAT
  else if ttype = TPrimitiveType.DOUBLE then .TYPE_DOUBLE
  else if ttype = TPrimitiveType.DATE then .TYPE_DATE
  else if ttype = TPrimitiveType.DATETIME then .TYPE_DATETIME
  else if ttype = TPrimitiveType.BINARY then .TYPE_BINARY
  else if ttype = TPrimitiveType.CHAR then .TYPE_CHAR
  else if ttype = TPrimitiveType.VARCHAR then .TYPE_VARCHAR
  else if ttype = TPrimitiveType.STRING then .TYPE_STRING
  else if ttype = TPrimitiveType.DATEV2 then .TYPE_DATEV2
  else if ttype = TPrimitiveType.DATETIMEV2 then .TYPE_DATETIMEV2
  else .INVALID_TYPE

/-- Modelled from the spec: the native type `TypeDescriptor` (`runtime/types.h`,
not under `src/`): a kind, the precision and scale (meaningful only for a
decimal, `-1` when unset), the ordered sub-types of a container and the ordered
field names of a struct. -/
structure TypeDescriptor where
  type : PrimitiveType
  precision : Int
  scale : Int
  children : List TypeDescriptor
  field_names : List String

namespace TypeDescriptor

/-- Modelled from the spec: the constructor `TypeDescriptor(PrimitiveType)`: the
given kind with no sub-structure. -/
def ofPrimitive (type : PrimitiveType) : TypeDescriptor :=
  { type := type, precision := -1, scale := -1, children := [], field_names := [] }

/-- Modelled from the spec: `TypeDescriptor::create_decimalv3_type`: the native
decimal type parameterised by (precision, scale). -/
def create_decimalv3_type (precision scale : Int) : TypeDescriptor :=
  { type := .TYPE_DECIMAL, precision := precision, scale := scale, children := [],
    field_names := [] }

/-- Modelled from the spec: `add_sub_type(sub_type)`: appends one sub-type. -/
def add_sub_type (t sub_type : TypeDescriptor) : TypeDescriptor :=
  { t with children := t.children ++ [sub_type] }

/-- Modelled from the spec: `add_sub_type(sub_type, field_name)`: appends one
sub-type and its field name. -/
def add_sub_type_named (t sub_type : TypeDescriptor) (field_name : String) : TypeDescriptor :=
  { t with children := t.children ++ [sub_type], field_names := t.field_names ++ [field_name] }

end TypeDescriptor

/-! ## `convert_to_doris_type` -/

namespace HiveJNIReader

mutual

/-- The function `HiveJNIReader::convert_to_doris_type`. The `switch` over the
case labels is an `if` chain over the same labels in the same groups; the
result is `none` where the C++ reaches a failing rapidjson access. -/
def convert_to_doris_type (column_schema : Value) : Option TypeDescriptor := do
  let schema_type ← (← column_schema.member "type").GetInt
  let precision ← (← column_schema.member "precision").GetInt
  let scale ← (← column_schema.member "scale").GetInt
  if schema_type = TPrimitiveType.TINYINT ∨ schema_type = TPrimitiveType.INT
      ∨ schema_type = TPrimitiveType.STRING ∨ schema_type = TPrimitiveType.BIGINT
      ∨ schema_type = TPrimitiveType.SMALLINT ∨ schema_type = TPrimitiveType.LARGEINT
      ∨ schema_type = TPrimitiveType.BOOLEAN ∨ schema_type = TPrimitiveType.DOUBLE
      ∨ schema_type = TPrimitiveType.FLOAT ∨ schema_type = TPrimitiveType.BINARY
      ∨ schema_type = TPrimitiveType.DATE ∨ schema_type = TPrimitiveType.DATEV2
      ∨ schema_type = TPrimitiveType.DATETIME ∨ schema_type = TPrimitiveType.DATETIMEV2
      ∨ schema_type = TPrimitiveType.CHAR ∨ schema_type = TPrimitiveType.VARCHAR then
    some (TypeDescriptor.ofPrimitive (thrift_to_type schema_type))
  else if schema_type = TPrimitiveType.DECIMALV2 ∨ schema_type = TPrimitiveType.DECIMAL32
      ∨ schema_type = TPrimitiveType.DECIMAL64 ∨ schema_type = TPrimitiveType.DECIMAL128I then
    some (TypeDescriptor.create_decimalv3_type precision scale)
  else if schema_type = TPrimitiveType.ARRAY then
    let list_type := TypeDescriptor.ofPrimitive .TYPE_ARRAY
    let ⟨childColumns, _⟩ ← column_schema.memberDec "childColumns"
    let ⟨child0, _⟩ ← childColumns.indexDec 0
    some (list_type.add_sub_type (← convert_to_doris_type child0))
  else if schema_type = TPrimitiveType.MAP then
    let map_type := TypeDescriptor.ofPrimitive .TYPE_MAP
    let ⟨childColumns, _⟩ ← column_schema.memberDec "childColumns"
    -- The default type of MAP structure key is STRING
    let map_type := map_type.add_sub_type (TypeDescriptor.ofPrimitive .TYPE_STRING)
    let ⟨child1, _⟩ ← childColumns.indexDec 1
    some (map_type.add_sub_type (← convert_to_doris_type child1))
  else if schema_type = TPrimitiveType.STRUCT then
    let struct_type := TypeDescriptor.ofPrimitive .TYPE_STRUCT
    let ⟨childColumns, _⟩ ← column_schema.memberDec "childColumns"
    let ⟨children, _⟩ ← childColumns.elementsDec
    convert_struct_children struct_type children
  else
    some (TypeDescriptor.ofPrimitive .INVALID_TYPE)
termination_by sizeOf column_schema
decreasing_by
  all_goals simp_wf
  all_goals omega

/-- The loop of the STRUCT case over `childColumns[i]`, `i = 0 .. Size()-1`: the
remaining children are converted in order and added to `struct_type`, each with
the field name `std::string(child["name"].GetString())`. -/
def convert_struct_children (struct_type : TypeDescriptor) :
    List Value → Option TypeDescriptor
  | [] => some struct_type
  | child :: rest => do
    let sub_type ← convert_to_doris_type child
    let name := std_string (← (← child.member "name").GetString)
    convert_struct_children (struct_type.add_sub_type_named sub_type name) rest
termination_by children => sizeOf children
decreasing_by
  all_goals simp_wf
  all_goals omega

end

end HiveJNIReader

namespace RCBinaryJNIReader

mutual

/-- The function `RCBinaryJNIReader::convert_to_doris_type`. The `switch` over
the case labels is an `if` chain over the same labels in the same groups; the
result is `none` where the C++ reaches a failing rapidjson access. -/
def convert_to_doris_type (column_schema : Value) : Option TypeDescriptor := do
  let schema_type ← (← column_schema.member "type").GetInt
  if schema_type = TPrimitiveType.INT ∨ schema_type = TPrimitiveType.STRING
      ∨ schema_type = TPrimitiveType.BIGINT ∨ schema_type = TPrimitiveType.BOOLEAN
      ∨ schema_type = TPrimitiveType.DOUBLE ∨ schema_type = TPrimitiveType.FLOAT
      ∨ schema_type = TPrimitiveType.BINARY then
    some (TypeDescriptor.ofPrimitive (thrift_to_type schema_type))
  else if schema_type = TPrimitiveType.ARRAY then
    let list_type := TypeDescriptor.ofPrimitive .TYPE_ARRAY
    let ⟨childColumns, _⟩ ← column_schema.memberDec "childColumns"
    let ⟨child0, _⟩ ← childColumns.indexDec 0
    some (list_type.add_sub_type (← convert_to_doris_type child0))
  else if schema_type = TPrimitiveType.MAP then
    let map_type := TypeDescriptor.ofPrimitive .TYPE_MAP
    let ⟨childColumns, _⟩ ← column_schema.memberDec "childColumns"
    -- The default type of AVRO MAP structure key is STRING
    let map_type := map_type.add_sub_type (TypeDescriptor.ofPrimitive .TYPE_STRING)
    let ⟨child1, _⟩ ← childColumns.indexDec 1
    some (map_type.add_sub_type (← convert_to_doris_type child1))
  else if schema_type = TPrimitiveType.STRUCT then
    let struct_type := TypeDescriptor.ofPrimitive .TYPE_STRUCT
    let ⟨childColumns, _⟩ ← column_schema.memberDec "childColumns"
    let ⟨children, _⟩ ← childColumns.elementsDec
    convert_struct_children struct_type children
  else
    some (TypeDescriptor.ofPrimitive .INVALID_TYPE)
termination_by sizeOf column_schema
decreasing_by
  all_goals simp_wf
  all_goals omega

/-- The loop of the STRUCT case over `childColumns[i]`, `i = 0 .. Size()-1`: the
remaining children are converted in order and added to `struct_type`, each with
the field name `std::string(child["name"].GetString())`. -/
def convert_struct_children (struct_type : TypeDescriptor) :
    List Value → Option TypeDescriptor
  | [] => some struct_type
  | child :: rest => do
    let sub_type ← convert_to_doris_type child
    let name := std_string (← (← child.member "name").GetString)
    convert_struct_children (struct_type.add_sub_type_named sub_type name) rest
termination_by children => sizeOf children
decreasing_by
  all_goals simp_wf
  all_goals omega

end

end RCBinaryJNIReader

/-! ## Accessor chains used to state the properties -/

/-- The chain `v["name"].GetInt()`. -/
def intMember (v : Value) (name : String) : Option Int :=
  (v.member name).bind Value.GetInt

/-- The chain `v["name"].GetString()`. -/
def stringMember (v : Value) (name : String) : Option String :=
  (v.member name).bind Value.GetString

/-- The native map type with string keys and the given value type. -/
def mapOfString (value_type : TypeDescriptor) : TypeDescriptor :=
  { type := .TYPE_MAP, precision := -1, scale := -1,
    children := [TypeDescriptor.ofPrimitive .TYPE_STRING, value_type], field_names := [] }

/-- The case labels of `HiveJNIReader::convert_to_doris_type` that return a
scalar. -/
def HiveJNIReader.scalarTags : List TPrimitiveType :=
  [TPrimitiveType.TINYINT, TPrimitiveType.INT, TPrimitiveType.STRING, TPrimitiveType.BIGINT,
   TPrimitiveType.SMALLINT, TPrimitiveType.LARGEINT, TPrimitiveType.BOOLEAN,
   TPrimitiveType.DOUBLE, TPrimitiveType.FLOAT, TPrimitiveType.BINARY, TPrimitiveType.DATE,
   TPrimitiveType.DATEV2, TPrimitiveType.DATETIME, TPrimitiveType.DATETIMEV2,
   TPrimitiveType.CHAR, TPrimitiveType.VARCHAR]

/-- The decimal-family case labels of `HiveJNIReader::convert_to_doris_type`. -/
def decimalTags : List TPrimitiveType :=
  [TPrimitiveType.DECIMALV2, TPrimitiveType.DECIMAL32, TPrimitiveType.DECIMAL64,
   TPrimitiveType.DECIMAL128I]

/-- The container case labels of both converters. -/
def containerTags : List TPrimitiveType :=
  [TPrimitiveType.ARRAY, TPrimitiveType.MAP, TPrimitiveType.STRUCT]

/-- All case labels of `HiveJNIReader::convert_to_doris_type`. -/
def HiveJNIReader.handledTags : List TPrimitiveType :=
  HiveJNIReader.scalarTags ++ decimalTags ++ containerTags

/-- The case labels of `RCBinaryJNIReader::convert_to_doris_type` that return a
scalar. -/
def RCBinaryJNIReader.scalarTags : List TPrimitiveType :=
  [TPrimitiveType.INT, TPrimitiveType.STRING, TPrimitiveType.BIGINT, TPrimitiveType.BOOLEAN,
   TPrimitiveType.DOUBLE, TPrimitiveType.FLOAT, TPrimitiveType.BINARY]

/-- All case labels of `RCBinaryJNIReader::convert_to_doris_type`. -/
def RCBinaryJNIReader.handledTags : List TPrimitiveType :=
  RCBinaryJNIReader.scalarTags ++ containerTags

/-- The supported scalar tags of the specification, each with its native
scalar: the table of the 1:1 mapping. -/
def scalarTable : List (TPrimitiveType × PrimitiveType) :=
  [(TPrimitiveType.TINYINT, .TYPE_TINYINT), (TPrimitiveType.SMALLINT, .TYPE_SMALLINT),
   (TPrimitiveType.INT, .TYPE_INT), (TPrimitiveType.BIGINT, .TYPE_BIGINT),
   (TPrimitiveType.FLOAT, .TYPE_FLOAT), (TPrimitiveType.DOUBLE, .TYPE_DOUBLE),
   (TPrimitiveType.BOOLEAN, .TYPE_BOOLEAN), (TPrimitiveType.STRING, .TYPE_STRING),
   (TPrimitiveType.CHAR, .TYPE_CHAR), (TPrimitiveType.VARCHAR, .TYPE_VARCHAR),
   (TPrimitiveType.BINARY, .TYPE_BINARY), (TPrimitiveType.DATE, .TYPE_DATE),
   (TPrimitiveType.DATEV2, .TYPE_DATEV2), (TPrimitiveType.DATETIME, .TYPE_DATETIME),
   (TPrimitiveType.DATETIMEV2, .TYPE_DATETIMEV2)]

/-- The kinds that `RCBinaryJNIReader::convert_to_doris_type` can return: the
images of its scalar case labels, the three containers and the INVALID
sentinel. -/
def rcKind : PrimitiveType → Bool
  | .TYPE_INT | .TYPE_STRING | .TYPE_BIGINT | .TYPE_BOOLEAN | .TYPE_DOUBLE | .TYPE_FLOAT
  | .TYPE_BINARY | .TYPE_ARRAY | .TYPE_MAP | .TYPE_STRUCT | .INVALID_TYPE => true
  | _ => false

mutual

/-- Whether every kind occurring in a native type (the type itself and,
recursively, its sub-types) is one that the RC-binary converter can return. -/
def TypeDescriptor.rcKindsOnly : TypeDescriptor → Bool
  | ⟨type, _, _, children, _⟩ => rcKind type && rcKindsOnlyList children

/-- The list form of `TypeDescriptor.rcKindsOnly`. -/
def rcKindsOnlyList : List TypeDescriptor → Bool
  | [] => true
  | t :: ts => t.rcKindsOnly && rcKindsOnlyList ts

end

/-- The container cases and the default case, whose text is the same in both
converters: `conv` is the converter itself (for the children) and `loop` its
struct loop. -/
def containerCases (conv : Value → Option TypeDescriptor)
    (loop : TypeDescriptor → List Value → Option TypeDescriptor)
    (e : Value) (schema_type : TPrimitiveType) : Option TypeDescriptor :=
  if schema_type = TPrimitiveType.ARRAY then
    (e.member "childColumns").bind fun cc => (cc.index 0).bind fun c0 =>
      (conv c0).bind fun t => some ((TypeDescriptor.ofPrimitive .TYPE_ARRAY).add_sub_type t)
  else if schema_type = TPrimitiveType.MAP then
    (e.member "childColumns").bind fun cc => (cc.index 1).bind fun c1 =>
      (conv c1).bind fun t =>
        some (((TypeDescriptor.ofPrimitive .TYPE_MAP).add_sub_type
          (TypeDescriptor.ofPrimitive .TYPE_STRING)).add_sub_type t)
  else if schema_type = TPrimitiveType.STRUCT then
    (e.member "childColumns").bind fun cc => cc.elements.bind fun cs =>
      loop (TypeDescriptor.ofPrimitive .TYPE_STRUCT) cs
  else some (TypeDescriptor.ofPrimitive .INVALID_TYPE)

/-- What the claim about struct entries says of a conversion result `r` for
the children `cs`: a struct with one field per child, in order, the field
carrying the child's converted type and the child's name, taken as a C string:
the name itself when it has no embedded NUL character. -/
def IsStructOf (conv : Value → Option TypeDescriptor) (cs : List Value)
    (r : Option TypeDescriptor) : Prop :=
  ∃ td, r = some td ∧ td.type = .TYPE_STRUCT ∧
    td.children.length = cs.length ∧ td.field_names.length = cs.length ∧
    ∀ (i : Nat) (c : Value), cs[i]? = some c →
      (∃ n, stringMember c "name" = some n ∧ td.field_names[i]? = some (std_string n) ∧
        (hasNoNul n = true → td.field_names[i]? = some n)) ∧
      (∃ t, conv c = some t ∧ td.children[i]? = some t)

/-- A sample entry: a map whose key child declares INT and whose value child
declares BIGINT. -/
def sampleMapEntry : Value :=
  .object [("name", .string "meta"), ("type", .int 21), ("precision", .int 0),
    ("scale", .int 0),
    ("childColumns", .array [
      .object [("type", .int 5), ("precision", .int 0), ("scale", .int 0)],
      .object [("type", .int 6), ("precision", .int 0), ("scale", .int 0)]])]

/-- A sample entry: a struct with the fields `name: STRING` and `age: INT`. -/
def sampleStructEntry : Value :=
  .object [("name", .string "person"), ("type", .int 22), ("precision", .int 0),
    ("scale", .int 0),
    ("childColumns", .array [
      .object [("name", .string "name"), ("type", .int 23), ("precision", .int 0),
        ("scale", .int 0)],
      .object [("name", .string "age"), ("type", .int 5), ("precision", .int 0),
        ("scale", .int 0)]])]

/-- A sample entry: a DECIMAL64 column of precision 10 and scale 2. -/
def sampleDecimalEntry : Value :=
  .object [("name", .string "price"), ("type", .int 30), ("precision", .int 10),
    ("scale", .int 2)]

/-- A sample entry: a TINYINT column. -/
def sampleTinyintEntry : Value :=
  .object [("name", .string "col_tinyint"), ("type", .int 3), ("precision", .int 0),
    ("scale", .int 0)]

/-- A sample entry: an INT column that carries no precision and no scale. -/
def sampleBareIntEntry : Value :=
  .object [("name", .string "id"), ("type", .int 5)]

/-- A sample entry whose tag (HLL, ordinal 16) no converter handles; it carries
child columns all the same. -/
def sampleUnsupportedEntry : Value :=
  .object [("name", .string "sketch"), ("type", .int 16), ("precision", .int 0),
    ("scale", .int 0), ("childColumns", .array [.null])]

/-- What the two converters have in common on an entry `e`: where the
RC-binary converter fails the Hive converter fails, and a Hive result built
from RC-binary kinds only is also the RC-binary result. -/
def ConvertersAgree (e : Value) : Prop :=
  (RCBinaryJNIReader.convert_to_doris_type e = none →
    HiveJNIReader.convert_to_doris_type e = none) ∧
  (∀ td, HiveJNIReader.convert_to_doris_type e = some td → td.rcKindsOnly = true →
    RCBinaryJNIReader.convert_to_doris_type e = some td)

/-! ## Scan parameters -/

/-- A parameter map `std::map<String, String>`: keys are unique. -/
abbrev ParamMap := List (String × String)

namespace ParamMap

/-- The lookup `m.find(key)`. -/
def find (m : ParamMap) (key : String) : Option String :=
  match m with
  | [] => none
  | (k, v) :: rest => if k = key then some v else find rest key

/-- The insertion `m.insert({key, value})`: a key that is already present keeps
its value. -/
def insert (m : ParamMap) (kv : String × String) : ParamMap :=
  match m.find kv.1 with
  | some _ => m
  | none => m ++ [kv]

/-- The range insertion `m.insert(first, last)`, and the construction from an
initializer list when `m` is empty: the entries are inserted one by one. -/
def insert_range (m : ParamMap) (entries : List (String × String)) : ParamMap :=
  entries.foldl insert m

end ParamMap

/-- The storage kind `TFileType::type` (Thrift IDL, not under `src/`), an
integer enum printed with `std::to_string`. -/
abbrev TFileType := Int

/-- Modelled from the spec: the storage kind of the remote object store
(`TFileType::FILE_S3`), with its ordinal in the Thrift enum. -/
def TFileType.FILE_S3 : TFileType := 2

/-- The fields of `TFileRangeDesc` read by the readers; `isset_file_type` is the
flag `__isset.file_type`. -/
structure TFileRangeDesc where
  path : String
  start_offset : Int
  size : Int
  isset_file_type : Bool
  file_type : TFileType

/-- The fields of `TFileScanRangeParams` read by the readers. -/
structure TFileScanRangeParams where
  file_type : TFileType
  format_type : Int
  properties : List (String × String)

/-- The fields of `SlotDescriptor` read by the readers. -/
structure SlotDescriptor where
  col_name : String
  type : TypeDescriptor

/-- The members of a reader (`HiveJNIReader` and `RCBinaryJNIReader` have the
same ones) that the parameter builders read. -/
structure JniReader where
  file_slot_descs : List SlotDescriptor
  params : TFileScanRangeParams
  range : TFileRangeDesc

/-- The arguments with which a reader constructs its `JniConnector`. -/
structure JniConnector where
  connector_class : String
  scanner_params : ParamMap
  column_names : List String

/-- The locals of the descriptor loop of `init_fetch_table_reader`. -/
structure FieldStreams where
  required_fields : String
  columns_types : String
  column_names : List String
  index : Nat

/-- One iteration of the descriptor loop of `init_fetch_table_reader`;
`get_jni_type` is `JniConnector::get_jni_type`, which is not under `src/`. -/
def collect_field (get_jni_type : TypeDescriptor → String) (st : FieldStreams)
    (desc : SlotDescriptor) : FieldStreams :=
  let field := desc.col_name
  let type := get_jni_type desc.type
  if st.index = 0 then
    { required_fields := st.required_fields ++ field,
      columns_types := st.columns_types ++ type,
      column_names := st.column_names ++ [field],
      index := st.index + 1 }
  else
    { required_fields := st.required_fields ++ "," ++ field,
      columns_types := st.columns_types ++ "#" ++ type,
      column_names := st.column_names ++ [field],
      index := st.index + 1 }

/-- The descriptor loop of `init_fetch_table_reader` (the same text in both
readers), from empty streams and `index = 0`. -/
def collect_fields (get_jni_type : TypeDescriptor → String)
    (file_slot_descs : List SlotDescriptor) : FieldStreams :=
  file_slot_descs.foldl (collect_field get_jni_type)
    { required_fields := "", columns_types := "", column_names := [], index := 0 }

/-- The hard-coded `columns_names` / `required_fields` literal of the Hive
reader. -/
def HiveJNIReader.fixed_columns_names : String :=
  "col_tinyint,col_smallint,col_int,col_bigint,col_float,col_double,col_decimal,col_string,col_char,col_varchar,col_boolean,col_timestamp,col_date,col_array,col_map,col_struct"

/-- The hard-coded `columns_types` literal of the Hive reader. -/
def HiveJNIReader.fixed_columns_types : String :=
  "tinyint#smallint#int#bigint#float#double#decimal(10,2)#string#char(10)#varchar(20)#boolean#timestamp#date#array<string>#map<string,int>#struct<name:string,age:int>"

/-- The function `get_file_type` (the same text in both readers). -/
def JniReader.get_file_type (r : JniReader) : TFileType :=
  if r.range.isset_file_type then r.range.file_type else r.params.file_type

/-- The initializer list of `required_params` in
`HiveJNIReader::init_fetch_table_reader`. -/
def HiveJNIReader.scan_initializer (r : JniReader) : List (String × String) :=
  [("uri", r.range.path),
   ("file_type", toString r.get_file_type),
   ("is_get_table_schema", "false"),
   ("file_format", toString r.params.format_type),
   ("columns_names", HiveJNIReader.fixed_columns_names),
   ("columns_types", HiveJNIReader.fixed_columns_types),
   ("required_fields", HiveJNIReader.fixed_columns_names),
   ("split_start_offset", toString r.range.start_offset),
   ("split_size", toString r.range.size)]

/-- The function `HiveJNIReader::init_fetch_table_reader`, up to the
construction of the connector. The streams of the descriptor loop are computed
and not read afterwards; only `column_names` reaches the connector. -/
def HiveJNIReader.init_fetch_table_reader (get_jni_type : TypeDescriptor → String)
    (r : JniReader) : JniConnector :=
  let streams := collect_fields get_jni_type r.file_slot_descs
  let type := r.get_file_type
  let required_params : ParamMap :=
    ParamMap.insert_range [] (HiveJNIReader.scan_initializer r)
  let required_params :=
    if type = TFileType.FILE_S3 then required_params.insert_range r.params.properties
    else required_params
  { connector_class := "org/apache/doris/hive/HiveJNIScanner",
    scanner_params := required_params,
    column_names := streams.column_names }

/-- The initializer list of `required_params` in
`HiveJNIReader::init_fetch_table_schema_reader`. -/
def HiveJNIReader.schema_initializer (r : JniReader) : List (String × String) :=
  [("uri", r.range.path),
   ("file_type", toString r.get_file_type),
   ("file_format", toString r.params.format_type),
   ("is_get_table_schema", "true"),
   ("columns_names", HiveJNIReader.fixed_columns_names),
   ("columns_types", HiveJNIReader.fixed_columns_types),
   ("required_fields", HiveJNIReader.fixed_columns_names)]

/-- The function `HiveJNIReader::init_fetch_table_schema_reader`, up to the
construction of the connector (which gets no column names). -/
def HiveJNIReader.init_fetch_table_schema_reader (r : JniReader) : JniConnector :=
  let required_params : ParamMap :=
    ParamMap.insert_range [] (HiveJNIReader.schema_initializer r)
  let required_params := required_params.insert_range r.params.properties
  { connector_class := "org/apache/doris/hive/HiveJNIScanner",
    scanner_params := required_params,
    column_names := [] }

/-- The initializer list of `required_params` in
`RCBinaryJNIReader::init_fetch_table_reader`; `columns_types` is the text of the
`columns_types` stream of the descriptor loop. -/
def RCBinaryJNIReader.scan_initializer (columns_types : String) (r : JniReader) :
    List (String × String) :=
  [("uri", r.range.path),
   ("required_fields", "col_tinyint"),
   ("columns_types", columns_types),
   ("file_type", toString r.get_file_type),
   ("is_get_table_schema", "false")]

/-- The function `RCBinaryJNIReader::init_fetch_table_reader`, up to the
construction of the connector. -/
def RCBinaryJNIReader.init_fetch_table_reader (get_jni_type : TypeDescriptor → String)
    (r : JniReader) : JniConnector :=
  let streams := collect_fields get_jni_type r.file_slot_descs
  let type := r.get_file_type
  let required_params : ParamMap :=
    ParamMap.insert_range [] (RCBinaryJNIReader.scan_initializer streams.columns_types r)
  let required_params :=
    if type = TFileType.FILE_S3 then required_params.insert_range r.params.properties
    else required_params
  { connector_class := "org/apache/doris/hive/HiveJNIScanner",
    scanner_params := required_params,
    column_names := streams.column_names }

/-- The initializer list of `required_params` in
`RCBinaryJNIReader::init_fetch_table_schema_reader`. -/
def RCBinaryJNIReader.schema_initializer (r : JniReader) : List (String × String) :=
  [("uri", r.range.path),
   ("file_type", toString r.get_file_type),
   ("is_get_table_schema", "true")]

/-- The function `RCBinaryJNIReader::init_fetch_table_schema_reader`, up to the
construction of the connector (which gets no column names). -/
def RCBinaryJNIReader.init_fetch_table_schema_reader (r : JniReader) : JniConnector :=
  let required_params : ParamMap :=
    ParamMap.insert_range [] (RCBinaryJNIReader.schema_initializer r)
  let required_params := required_params.insert_range r.params.properties
  { connector_class := "org/apache/doris/hive/HiveJNIScanner",
    scanner_params := required_params,
    column_names := [] }

/-! ## Sample readers -/

/-- A sample of `JniConnector::get_jni_type`, defined on the kinds the sample
readers use. -/
def sampleJniType (t : TypeDescriptor) : String :=
  match t.type with
  | .TYPE_STRING => "string"
  | .TYPE_INT => "int"
  | .TYPE_ARRAY => "array<string>"
  | _ => "unsupported"

/-- Two sample column descriptors: `id: string` and `tags: array(string)`. -/
def sampleDescs : List SlotDescriptor :=
  [{ col_name := "id", type := TypeDescriptor.ofPrimitive .TYPE_STRING },
   { col_name := "tags",
     type := (TypeDescriptor.ofPrimitive .TYPE_ARRAY).add_sub_type
       (TypeDescriptor.ofPrimitive .TYPE_STRING) }]

/-- A sample reader over a split at offset 100 of size 200, whose storage kind
is `file_type` and whose source properties are `properties`. -/
def sampleReader (file_type : TFileType) (properties : List (String × String)) :
    JniReader :=
  { file_slot_descs := sampleDescs,
    params := { file_type := file_type, format_type := 9, properties := properties },
    range := { path := "s3://bucket/table/part-0", start_offset := 100, size := 200,
               isset_file_type := false, file_type := 0 } }

/-- The six keys that the specification lists for every parameter map. -/
def minimalKeys : List String :=
  ["uri", "file_type", "file_format", "is_get_table_schema", "required_fields",
   "columns_types"]

/-- The keys among `minimalKeys` that `RCBinaryJNIReader::init_fetch_table_reader`
sets. -/
def RCBinaryJNIReader.scanKeys : List String :=
  ["uri", "file_type", "is_get_table_schema", "required_fields", "columns_types"]

/-- The keys among `minimalKeys` that
`RCBinaryJNIReader::init_fetch_table_schema_reader` sets. -/
def RCBinaryJNIReader.schemaKeys : List String :=
  ["uri", "file_type", "is_get_table_schema"]

/-- The two keys that describe the split. -/
def splitKeys : List String := ["split_start_offset", "split_size"]

/-! ## The connector, and the reader functions that drive it -/

/-- The result type `Status` (`common/status.h`, not under `src/`): `OK`, or an
error with its code and message. -/
inductive Status where
  | OK
  | error (code : Int) (msg : String)
  deriving DecidableEq, Repr

/-- The method `Status::ok()`. -/
def Status.ok : Status → Bool
  | .OK => true
  | .error _ _ => false

/-- What a call `JniConnector::get_next_block(block, read_rows, eof)` leaves to
its caller: the returned status and the values of `*read_rows` and `*eof` after
the call (the block belongs to the connector's state). -/
structure NextBlock where
  status : Status
  read_rows : Nat
  eof : Bool

/-- The behaviour of a `JniConnector` (`vec/exec/jni_connector.cpp`, not under
`src/`) over its state `σ`: the three calls that the readers make once the
connector is open. The readers are embedded for an arbitrary such behaviour. -/
structure JniConnectorOps (σ : Type) where
  get_next_block : σ → NextBlock × σ
  close : σ → Status × σ
  get_table_schema : σ → (Status × String) × σ

/-- The calls a reader makes to its connector. -/
inductive ConnectorCall where
  | get_next_block
  | close
  | get_table_schema
  deriving DecidableEq, Repr

/-- The member `_jni_connector` of a reader: the state of the connector and,
as a ghost field, the calls made to it so far (oldest first). -/
structure Session (σ : Type) where
  connector : σ
  calls : List ConnectorCall

/-- What a reader's `get_next_block` leaves to its caller: the returned status,
the values of `*read_rows` and `*eof`, and the connector afterwards. -/
structure NextBlockResult (σ : Type) where
  status : Status
  read_rows : Nat
  eof : Bool
  session : Session σ

/-- The function `get_next_block` of both readers (`HiveJNIReader` and
`RCBinaryJNIReader`; the RC-binary text only adds `LOG(WARNING)` lines).
`RETURN_IF_ERROR(call)` returns the status of `call` when it is not `ok()`. -/
def JniReader.get_next_block {σ : Type} (ops : JniConnectorOps σ) (s : Session σ) :
    NextBlockResult σ :=
  let r := ops.get_next_block s.connector
  let s1 : Session σ := { connector := r.2, calls := s.calls ++ [.get_next_block] }
  if !r.1.status.ok then
    { status := r.1.status, read_rows := r.1.read_rows, eof := r.1.eof, session := s1 }
  else if r.1.eof then
    let c := ops.close s1.connector
    let s2 : Session σ := { connector := c.2, calls := s1.calls ++ [.close] }
    if !c.1.ok then
      { status := c.1, read_rows := r.1.read_rows, eof := r.1.eof, session := s2 }
    else
      { status := .OK, read_rows := r.1.read_rows, eof := r.1.eof, session := s2 }
  else
    { status := .OK, read_rows := r.1.read_rows, eof := r.1.eof, session := s1 }

/-- The DOM that `document.Parse(text)` leaves in a fresh `rapidjson::Document`,
given the parser `parse` of rapidjson (third-party code, a parameter of the
embedding; `none` is a parse error): the parsed value, and on a parse error
the null value the document was constructed with. -/
def rapidjson.Document.Parse (parse : String → Option Value) (text : String) : Value :=
  match parse text with
  | some v => v
  | none => .null

/-- What `get_parsed_schema` leaves to its caller: the returned status, the
vectors `*col_names` and `*col_types`, and the connector afterwards. -/
structure ParsedSchema (σ : Type) where
  status : Status
  col_names : List String
  col_types : List TypeDescriptor
  session : Session σ

/-- The loop of `get_parsed_schema` over `document[i]`, `i = 0 .. Size()-1`, with
the reader's converter `convert_to_doris_type`: each entry's name and converted
type are pushed back, in order; `none` where a rapidjson access fails. -/
def parsed_schema_loop (convert_to_doris_type : Value → Option TypeDescriptor) :
    List Value → List String → List TypeDescriptor →
      Option (List String × List TypeDescriptor)
  | [], col_names, col_types => some (col_names, col_types)
  | column_schema :: rest, col_names, col_types => do
    let name := std_string (← (← column_schema.member "name").GetString)
    let col_names := col_names ++ [name]
    let type ← convert_to_doris_type column_schema
    parsed_schema_loop convert_to_doris_type rest col_names (col_types ++ [type])

/-- The function `get_parsed_schema`, whose text is the same in both readers,
over the reader's converter `convert_to_doris_type`; `col_names` and
`col_types` are the vectors behind the two pointers on entry. The result is
`none` where the C++ reaches a failing rapidjson access. -/
def JniReader.get_parsed_schema {σ : Type}
    (convert_to_doris_type : Value → Option TypeDescriptor)
    (parse : String → Option Value) (ops : JniConnectorOps σ) (s : Session σ)
    (col_names : List String) (col_types : List TypeDescriptor) :
    Option (ParsedSchema σ) :=
  let g := ops.get_table_schema s.connector
  let table_schema_str := g.1.2
  let s1 : Session σ := { connector := g.2, calls := s.calls ++ [.get_table_schema] }
  if !g.1.1.ok then
    some { status := g.1.1, col_names := col_names, col_types := col_types, session := s1 }
  else
    let document := rapidjson.Document.Parse parse table_schema_str
    let filled :=
      if document.IsArray then
        (document.elements).bind fun entries =>
          parsed_schema_loop convert_to_doris_type entries col_names col_types
      else some (col_names, col_types)
    filled.bind fun out =>
      let c := ops.close s1.connector
      some { status := c.1, col_names := out.1, col_types := out.2,
             session := { connector := c.2, calls := s1.calls ++ [.close] } }

/-- The function `HiveJNIReader::get_parsed_schema`. -/
def HiveJNIReader.get_parsed_schema {σ : Type} (parse : String → Option Value)
    (ops : JniConnectorOps σ) (s : Session σ) (col_names : List String)
    (col_types : List TypeDescriptor) : Option (ParsedSchema σ) :=
  JniReader.get_parsed_schema HiveJNIReader.convert_to_doris_type parse ops s col_names
    col_types

/-- The function `RCBinaryJNIReader::get_parsed_schema`. -/
def RCBinaryJNIReader.get_parsed_schema {σ : Type} (parse : String → Option Value)
    (ops : JniConnectorOps σ) (s : Session σ) (col_names : List String)
    (col_types : List TypeDescriptor) : Option (ParsedSchema σ) :=
  JniReader.get_parsed_schema RCBinaryJNIReader.convert_to_doris_type parse ops s col_names
    col_types

/-! ## Sample connectors and schema documents -/

/-- A sample connector without state: `get_next_block` always leaves `next`,
`get_table_schema` always leaves `schema`, and `close` succeeds. -/
def sampleOps (next : NextBlock) (schema : Status × String) : JniConnectorOps Unit :=
  { get_next_block := fun _ => (next, ()),
    close := fun _ => (.OK, ()),
    get_table_schema := fun _ => (schema, ()) }

/-- A sample connector whose state is the flag "the handle is released":
`get_next_block` always leaves `next` and `get_table_schema` always leaves
`schema`, both without touching the flag, and `close` succeeds and sets it. -/
def sampleFlagOps (next : NextBlock) (schema : Status × String) : JniConnectorOps Bool :=
  { get_next_block := fun released => (next, released),
    close := fun _ => (.OK, true),
    get_table_schema := fun released => (schema, released) }

/-- A freshly opened connector with the flag: not released, no call made yet. -/
def freshFlagSession : Session Bool := { connector := false, calls := [] }

/-- A freshly opened connector: no call made yet. -/
def freshSession : Session Unit := { connector := (), calls := [] }

/-- A sample column entry: `id`, a STRING column. -/
def sampleIdEntry : Value :=
  .object [("name", .string "id"), ("type", .int 23), ("precision", .int 0),
    ("scale", .int 0)]

/-- A sample column entry: `tags`, an ARRAY column with a STRING child. -/
def sampleTagsEntry : Value :=
  .object [("name", .string "tags"), ("type", .int 20), ("precision", .int 0),
    ("scale", .int 0),
    ("childColumns", .array [
      .object [("name", .string "element"), ("type", .int 23), ("precision", .int 0),
        ("scale", .int 0)]])]

/-- A sample column entry: `meta`, a MAP column with the children (STRING,
INT). -/
def sampleMetaEntry : Value :=
  .object [("name", .string "meta"), ("type", .int 21), ("precision", .int 0),
    ("scale", .int 0),
    ("childColumns", .array [
      .object [("name", .string "key"), ("type", .int 23), ("precision", .int 0),
        ("scale", .int 0)],
      .object [("name", .string "value"), ("type", .int 5), ("precision", .int 0),
        ("scale", .int 0)]])]

/-- The sample schema document: `id: string`, `tags: array` with a string
child, `meta: map` with the children (string, int). -/
def sampleSchemaDocument : Value :=
  .array [sampleIdEntry, sampleTagsEntry, sampleMetaEntry]

/-- The native types of the sample schema document: string, array(string),
map(string, int). -/
def sampleSchemaTypes : List TypeDescriptor :=
  [TypeDescriptor.ofPrimitive .TYPE_STRING,
   (TypeDescriptor.ofPrimitive .TYPE_ARRAY).add_sub_type
     (TypeDescriptor.ofPrimitive .TYPE_STRING),
   mapOfString (TypeDescriptor.ofPrimitive .TYPE_INT)]

/-- The text of the sample schema document. -/
def sampleSchemaText : String :=
  "[\x7b\"name\":\"id\",\"type\":23,\"precision\":0,\"scale\":0\x7d,\x7b\"name\":\"tags\",\"type\":20,\"precision\":0,\"scale\":0,\"childColumns\":[\x7b\"name\":\"element\",\"type\":23,\"precision\":0,\"scale\":0\x7d]\x7d,\x7b\"name\":\"meta\",\"type\":21,\"precision\":0,\"scale\":0,\"childColumns\":[\x7b\"name\":\"key\",\"type\":23,\"precision\":0,\"scale\":0\x7d,\x7b\"name\":\"value\",\"type\":5,\"precision\":0,\"scale\":0\x7d]\x7d]"

/-- A sample of the rapidjson parser on the texts used below: the sample schema
text, the empty object, and anything else (taken as not JSON). -/
def sampleParse (text : String) : Option Value :=
  if text = sampleSchemaText then some sampleSchemaDocument
  else if text = "\x7b\x7d" then some (.object [])
  else none

/-! ## Statement of the nested-unsupported-tag property -/

/-- An entry carries integer `precision` and `scale` members (which the Hive
converter reads before its `switch`). -/
def carriesPrecisionScale (e : Value) : Prop :=
  (intMember e "precision").isSome ∧ (intMember e "scale").isSome

/-- What it means for a converter `conv` (with the case labels `handled`, on
entries that satisfy `readable`) to keep a child with an unsupported tag
inside a container: for an entry `e` with such a child `c` in a converted
position, an ARRAY entry becomes array(INVALID), a MAP entry with `c` as value
child becomes map(STRING, INVALID), a STRUCT entry of otherwise well-formed
children becomes a struct with INVALID at the position of `c`; and the result
of any successful conversion is of kind INVALID if and only if the entry's own
tag is none of the case labels. -/
def KeepsUnsupportedChild (conv : Value → Option TypeDescriptor)
    (handled : List TPrimitiveType) (readable : Value → Prop) : Prop :=
  (∀ (e c : Value) (t : TPrimitiveType), readable e → readable c →
    intMember c "type" = some t → t ∉ handled →
    (intMember e "type" = some TPrimitiveType.ARRAY →
      (e.member "childColumns").bind (fun cc => cc.index 0) = some c →
      conv e = some ((TypeDescriptor.ofPrimitive .TYPE_ARRAY).add_sub_type
        (TypeDescriptor.ofPrimitive .INVALID_TYPE))) ∧
    (intMember e "type" = some TPrimitiveType.MAP →
      (e.member "childColumns").bind (fun cc => cc.index 1) = some c →
      conv e = some (mapOfString (TypeDescriptor.ofPrimitive .INVALID_TYPE))) ∧
    (∀ (cs : List Value) (i : Nat), intMember e "type" = some TPrimitiveType.STRUCT →
      e.member "childColumns" = some (.array cs) →
      (∀ d ∈ cs, (conv d).isSome ∧ (stringMember d "name").isSome) →
      cs[i]? = some c →
      ∃ td, conv e = some td ∧ td.type = .TYPE_STRUCT ∧
        td.children.length = cs.length ∧
        td.children[i]? = some (TypeDescriptor.ofPrimitive .INVALID_TYPE))) ∧
  (∀ (e : Value) (t : TPrimitiveType) (td : TypeDescriptor),
    intMember e "type" = some t → conv e = some td →
    (td.type = .INVALID_TYPE ↔ t ∉ handled))

/-- A sample entry: an array whose element child has the unsupported tag HLL
(ordinal 16). -/
def sampleArrayOfUnsupported : Value :=
  .object [("name", .string "sketches"), ("type", .int 20), ("precision", .int 0),
    ("scale", .int 0),
    ("childColumns", .array [
      .object [("name", .string "element"), ("type", .int 16), ("precision", .int 0),
        ("scale", .int 0)]])]

/-! # Theorems -/


/-! ## Unfolding the converters -/

namespace rapidjson.Value

theorem findMemberDec_val (name : String) (ms : List (String × Value)) :
    (findMemberDec name ms).map Subtype.val = findMember name ms := by
  induction ms with
  | nil => rfl
  | cons kv rest ih =>
    obtain ⟨k, v⟩ := kv
    simp only [findMemberDec, findMember]
    split
    · rfl
    · rw [← ih]
      cases findMemberDec name rest <;> rfl

theorem memberDec_val (v : Value) (name : String) :
    (v.memberDec name).map Subtype.val = v.member name := by
  cases v <;> try rfl
  rename_i ms
  simp only [memberDec, member]
  rw [← findMemberDec_val]
  cases findMemberDec name ms <;> rfl

theorem indexDec_val (v : Value) (i : Nat) :
    (v.indexDec i).map Subtype.val = v.index i := by
  cases v <;> try rfl
  rename_i xs
  simp only [indexDec, index]
  split
  · rename_i w h; simp [h]
  · rename_i h; simp [h]

theorem elementsDec_val (v : Value) :
    (v.elementsDec).map Subtype.val = v.elements := by
  cases v <;> rfl

theorem member_sizeOf {e v : Value} {name : String} (h : e.member name = some v) :
    sizeOf v < sizeOf e := by
  rw [← memberDec_val] at h
  cases hd : e.memberDec name with
  | none => simp [hd] at h
  | some x =>
    simp only [hd, Option.map_some', Option.some.injEq] at h
    subst h
    exact x.property

theorem index_sizeOf {e v : Value} {i : Nat} (h : e.index i = some v) :
    sizeOf v < sizeOf e := by
  rw [← indexDec_val] at h
  cases hd : e.indexDec i with
  | none => simp [hd] at h
  | some x =>
    simp only [hd, Option.map_some', Option.some.injEq] at h
    subst h
    exact x.property

theorem elements_sizeOf {e : Value} {xs : List Value} (h : e.elements = some xs) :
    sizeOf xs < sizeOf e := by
  rw [← elementsDec_val] at h
  cases hd : e.elementsDec with
  | none => simp [hd] at h
  | some x =>
    simp only [hd, Option.map_some', Option.some.injEq] at h
    subst h
    exact x.property

theorem memberDec_bind {β : Type} (v : Value) (name : String)
    (f : {w : Value // sizeOf w < sizeOf v} → Option β) (g : Value → Option β)
    (hfg : ∀ x, f x = g x.val) :
    (v.memberDec name).bind f = (v.member name).bind g := by
  rw [← memberDec_val]
  cases v.memberDec name <;> simp [hfg]

theorem indexDec_bind {β : Type} (v : Value) (i : Nat)
    (f : {w : Value // sizeOf w < sizeOf v} → Option β) (g : Value → Option β)
    (hfg : ∀ x, f x = g x.val) :
    (v.indexDec i).bind f = (v.index i).bind g := by
  rw [← indexDec_val]
  cases v.indexDec i <;> simp [hfg]

theorem elementsDec_bind {β : Type} (v : Value)
    (f : {xs : List Value // sizeOf xs < sizeOf v} → Option β) (g : List Value → Option β)
    (hfg : ∀ x, f x = g x.val) :
    (v.elementsDec).bind f = (v.elements).bind g := by
  rw [← elementsDec_val]
  cases v.elementsDec <;> simp [hfg]

end rapidjson.Value

theorem hive_convert_eq (e : Value) :
    HiveJNIReader.convert_to_doris_type e =
      (intMember e "type").bind fun schema_type =>
      (intMember e "precision").bind fun precision =>
      (intMember e "scale").bind fun scale =>
      if schema_type ∈ HiveJNIReader.scalarTags then
        some (TypeDescriptor.ofPrimitive (thrift_to_type schema_type))
      else if schema_type ∈ decimalTags then
        some (TypeDescriptor.create_decimalv3_type precision scale)
      else containerCases HiveJNIReader.convert_to_doris_type
        HiveJNIReader.convert_struct_children e schema_type := by
  rw [HiveJNIReader.convert_to_doris_type]
  simp only [bind, Option.bind_eq_bind, intMember, Option.bind_assoc, containerCases,
    HiveJNIReader.scalarTags, decimalTags, List.mem_cons, List.mem_singleton,
    List.not_mem_nil, or_false]
  congr 1; funext a; congr 1; funext schema_type
  congr 1; funext b; congr 1; funext precision
  congr 1; funext c; congr 1; funext scale
  split_ifs
  · rfl
  · rfl
  · apply Value.memberDec_bind; intro x
    apply Value.indexDec_bind; intro y; rfl
  · apply Value.memberDec_bind; intro x
    apply Value.indexDec_bind; intro y; rfl
  · apply Value.memberDec_bind; intro x
    apply Value.elementsDec_bind; intro y; rfl
  · rfl

theorem rcbinary_convert_eq (e : Value) :
    RCBinaryJNIReader.convert_to_doris_type e =
      (intMember e "type").bind fun schema_type =>
      if schema_type ∈ RCBinaryJNIReader.scalarTags then
        some (TypeDescriptor.ofPrimitive (thrift_to_type schema_type))
      else containerCases RCBinaryJNIReader.convert_to_doris_type
        RCBinaryJNIReader.convert_struct_children e schema_type := by
  rw [RCBinaryJNIReader.convert_to_doris_type]
  simp only [bind, Option.bind_eq_bind, intMember, Option.bind_assoc, containerCases,
    RCBinaryJNIReader.scalarTags, List.mem_cons, List.mem_singleton,
    List.not_mem_nil, or_false]
  congr 1; funext a; congr 1; funext schema_type
  split_ifs
  · rfl
  · apply Value.memberDec_bind; intro x
    apply Value.indexDec_bind; intro y; rfl
  · apply Value.memberDec_bind; intro x
    apply Value.indexDec_bind; intro y; rfl
  · apply Value.memberDec_bind; intro x
    apply Value.elementsDec_bind; intro y; rfl
  · rfl

theorem hive_struct_children_nil (st : TypeDescriptor) :
    HiveJNIReader.convert_struct_children st [] = some st := by
  rw [HiveJNIReader.convert_struct_children]

theorem hive_struct_children_cons (st : TypeDescriptor) (c : Value)
    (rest : List Value) :
    HiveJNIReader.convert_struct_children st (c :: rest) =
      (HiveJNIReader.convert_to_doris_type c).bind fun t =>
        (stringMember c "name").bind fun n =>
          HiveJNIReader.convert_struct_children
            (st.add_sub_type_named t (std_string n)) rest := by
  rw [HiveJNIReader.convert_struct_children]
  simp only [bind, Option.bind_eq_bind, stringMember, Option.bind_assoc]

theorem rcbinary_struct_children_nil (st : TypeDescriptor) :
    RCBinaryJNIReader.convert_struct_children st [] = some st := by
  rw [RCBinaryJNIReader.convert_struct_children]

theorem rcbinary_struct_children_cons (st : TypeDescriptor) (c : Value)
    (rest : List Value) :
    RCBinaryJNIReader.convert_struct_children st (c :: rest) =
      (RCBinaryJNIReader.convert_to_doris_type c).bind fun t =>
        (stringMember c "name").bind fun n =>
          RCBinaryJNIReader.convert_struct_children
            (st.add_sub_type_named t (std_string n)) rest := by
  rw [RCBinaryJNIReader.convert_struct_children]
  simp only [bind, Option.bind_eq_bind, stringMember, Option.bind_assoc]

/-! ### The converters case by case -/

/-- The Hive converter on an entry whose tag is outside its scalar and decimal
labels: the shared container cases. -/
theorem hive_convert_container {e : Value} {t p s : Int}
    (ht : intMember e "type" = some t) (hp : intMember e "precision" = some p)
    (hs : intMember e "scale" = some s) (h1 : t ∉ HiveJNIReader.scalarTags)
    (h2 : t ∉ decimalTags) :
    HiveJNIReader.convert_to_doris_type e =
      containerCases HiveJNIReader.convert_to_doris_type
        HiveJNIReader.convert_struct_children e t := by
  rw [hive_convert_eq, ht, hp, hs]
  simp only [Option.some_bind, if_neg h1, if_neg h2]

theorem hive_convert_scalar {e : Value} {t p s : Int}
    (ht : intMember e "type" = some t) (hp : intMember e "precision" = some p)
    (hs : intMember e "scale" = some s) (h1 : t ∈ HiveJNIReader.scalarTags) :
    HiveJNIReader.convert_to_doris_type e =
      some (TypeDescriptor.ofPrimitive (thrift_to_type t)) := by
  rw [hive_convert_eq, ht, hp, hs]
  simp only [Option.some_bind, if_pos h1]

theorem hive_convert_decimal {e : Value} {t p s : Int}
    (ht : intMember e "type" = some t) (hp : intMember e "precision" = some p)
    (hs : intMember e "scale" = some s) (h2 : t ∈ decimalTags) :
    HiveJNIReader.convert_to_doris_type e =
      some (TypeDescriptor.create_decimalv3_type p s) := by
  have h1 : t ∉ HiveJNIReader.scalarTags := by
    intro h
    simp only [decimalTags, List.mem_cons, List.mem_singleton, List.not_mem_nil,
      or_false] at h2
    rcases h2 with h2 | h2 | h2 | h2 <;> subst h2 <;> revert h <;> decide
  rw [hive_convert_eq, ht, hp, hs]
  simp only [Option.some_bind, if_neg h1, if_pos h2]

theorem rcbinary_convert_container {e : Value} {t : Int}
    (ht : intMember e "type" = some t) (h1 : t ∉ RCBinaryJNIReader.scalarTags) :
    RCBinaryJNIReader.convert_to_doris_type e =
      containerCases RCBinaryJNIReader.convert_to_doris_type
        RCBinaryJNIReader.convert_struct_children e t := by
  rw [rcbinary_convert_eq, ht]
  simp only [Option.some_bind, if_neg h1]

theorem rcbinary_convert_scalar {e : Value} {t : Int}
    (ht : intMember e "type" = some t) (h1 : t ∈ RCBinaryJNIReader.scalarTags) :
    RCBinaryJNIReader.convert_to_doris_type e =
      some (TypeDescriptor.ofPrimitive (thrift_to_type t)) := by
  rw [rcbinary_convert_eq, ht]
  simp only [Option.some_bind, if_pos h1]

theorem containerCases_array (conv : Value → Option TypeDescriptor)
    (loop : TypeDescriptor → List Value → Option TypeDescriptor) {e cc c0 : Value}
    (hcc : e.member "childColumns" = some cc) (h0 : cc.index 0 = some c0) :
    containerCases conv loop e TPrimitiveType.ARRAY =
      (conv c0).bind fun t =>
        some ((TypeDescriptor.ofPrimitive .TYPE_ARRAY).add_sub_type t) := by
  simp [containerCases, hcc, h0]

theorem containerCases_map (conv : Value → Option TypeDescriptor)
    (loop : TypeDescriptor → List Value → Option TypeDescriptor) {e cc v : Value}
    (hcc : e.member "childColumns" = some cc) (h1 : cc.index 1 = some v) :
    containerCases conv loop e TPrimitiveType.MAP = (conv v).bind fun t =>
      some (mapOfString t) := by
  have hne : TPrimitiveType.MAP ≠ TPrimitiveType.ARRAY := by decide
  simp only [containerCases, if_neg hne, if_true, hcc, h1, Option.some_bind]
  rfl

theorem containerCases_struct (conv : Value → Option TypeDescriptor)
    (loop : TypeDescriptor → List Value → Option TypeDescriptor) {e : Value}
    {cs : List Value} (hcc : e.member "childColumns" = some (.array cs)) :
    containerCases conv loop e TPrimitiveType.STRUCT =
      loop (TypeDescriptor.ofPrimitive .TYPE_STRUCT) cs := by
  have hne1 : TPrimitiveType.STRUCT ≠ TPrimitiveType.ARRAY := by decide
  have hne2 : TPrimitiveType.STRUCT ≠ TPrimitiveType.MAP := by decide
  simp only [containerCases, if_neg hne1, if_neg hne2, if_true, hcc, Option.some_bind,
    Value.elements]

theorem containerCases_other (conv : Value → Option TypeDescriptor)
    (loop : TypeDescriptor → List Value → Option TypeDescriptor) (e : Value) {t : Int}
    (h : t ∉ containerTags) :
    containerCases conv loop e t = some (TypeDescriptor.ofPrimitive .INVALID_TYPE) := by
  simp only [containerTags, List.mem_cons, List.mem_singleton, List.not_mem_nil, or_false,
    not_or] at h
  simp only [containerCases, if_neg h.1, if_neg h.2.1, if_neg h.2.2]


/-! ## The type converters: maps, structs, decimals, scalars, unsupported tags -/

/-- C1: an entry with the MAP tag whose `childColumns` has at least two children
(`key`, `value`, then any others) and whose second child converts to `T` is
converted, by both readers, to the map type with exactly the two sub-types
STRING and `T`. The key child does not occur in the result: whatever it
declares, the key type is the string scalar. The Hive converter first reads the
entry's `precision` and `scale`, which a wire schema entry carries. -/
theorem C1_map_key_is_string (e key value : Value) (rest : List Value)
    (htag : intMember e "type" = some TPrimitiveType.MAP)
    (hcc : e.member "childColumns" = some (.array (key :: value :: rest))) :
    (∀ T, (intMember e "precision").isSome → (intMember e "scale").isSome →
        HiveJNIReader.convert_to_doris_type value = some T →
        HiveJNIReader.convert_to_doris_type e = some (mapOfString T)) ∧
    (∀ T, RCBinaryJNIReader.convert_to_doris_type value = some T →
        RCBinaryJNIReader.convert_to_doris_type e = some (mapOfString T)) := by
  have h1 : (Value.array (key :: value :: rest)).index 1 = some value := by
    simp [Value.index]
  constructor
  · intro T hp hs hv
    obtain ⟨p, hp⟩ := Option.isSome_iff_exists.mp hp
    obtain ⟨s, hs⟩ := Option.isSome_iff_exists.mp hs
    rw [hive_convert_container htag hp hs (by decide) (by decide),
      containerCases_map _ _ hcc h1, hv]
    rfl
  · intro T hv
    rw [rcbinary_convert_container htag (by decide),
      containerCases_map _ _ hcc h1, hv]
    rfl

/-- C1, at the sample map entry whose key child declares INT: both readers
return map(STRING, BIGINT). -/
theorem C1_map_key_is_string_witness :
    HiveJNIReader.convert_to_doris_type sampleMapEntry
        = some (mapOfString (TypeDescriptor.ofPrimitive .TYPE_BIGINT)) ∧
    RCBinaryJNIReader.convert_to_doris_type sampleMapEntry
        = some (mapOfString (TypeDescriptor.ofPrimitive .TYPE_BIGINT)) :=
  have h := C1_map_key_is_string sampleMapEntry
    (.object [("type", .int 5), ("precision", .int 0), ("scale", .int 0)])
    (.object [("type", .int 6), ("precision", .int 0), ("scale", .int 0)]) []
    (by decide) (by rfl)
  ⟨h.1 _ (by decide) (by decide)
      (hive_convert_scalar (t := 6) (p := 0) (s := 0) (by decide) (by decide)
        (by decide) (by decide)),
    h.2 _ (rcbinary_convert_scalar (t := 6) (by decide) (by decide))⟩


/-- The construction `std::string(const char*)` keeps a string that has no
embedded NUL character. -/
theorem std_string_of_hasNoNul (s : String) (h : hasNoNul s = true) : std_string s = s := by
  cases s with
  | mk cs =>
    simp only [hasNoNul, List.all_eq_true, decide_eq_true_eq] at h
    have hk : cs.takeWhile (fun ch => decide (ch ≠ Char.ofNat 0)) = cs := by
      rw [List.takeWhile_eq_self_iff]
      intro ch hch
      simpa using h ch hch
    simp only [std_string, hk]

/-- The construction `std::string(const char*)` stops at the first NUL
character: the three characters `a`, NUL, `b` give the string `a`. -/
theorem std_string_stops_at_nul :
    std_string (String.mk ['a', Char.ofNat 0, 'b']) = "a" ∧
    hasNoNul (String.mk ['a', Char.ofNat 0, 'b']) = false ∧
    std_string "meta" = "meta" := by
  decide

/-- A struct loop (`loop`, with its converter `conv`) over well-formed children
appends one sub-type and one field name per child, in order. -/
theorem struct_loop_fields (conv : Value → Option TypeDescriptor)
    (loop : TypeDescriptor → List Value → Option TypeDescriptor)
    (hnil : ∀ st, loop st [] = some st)
    (hcons : ∀ st c rest, loop st (c :: rest) =
      (conv c).bind fun t => (stringMember c "name").bind fun n =>
        loop (st.add_sub_type_named t (std_string n)) rest) :
    ∀ (cs : List Value) (st : TypeDescriptor),
      (∀ c ∈ cs, (conv c).isSome ∧ (stringMember c "name").isSome) →
      ∃ (ts : List TypeDescriptor) (ns : List String),
        loop st cs = some { st with children := st.children ++ ts,
                                    field_names := st.field_names ++ ns } ∧
        ts.length = cs.length ∧ ns.length = cs.length ∧
        ∀ (i : Nat) (c : Value), cs[i]? = some c →
          (∃ n, stringMember c "name" = some n ∧ ns[i]? = some (std_string n)) ∧
          (∃ t, conv c = some t ∧ ts[i]? = some t) := by
  intro cs
  induction cs with
  | nil =>
    intro st _
    refine ⟨[], [], ?_, rfl, rfl, ?_⟩
    · rw [hnil]; cases st; simp
    · intro i c h; simp at h
  | cons c rest ih =>
    intro st hwf
    obtain ⟨hc, hn⟩ := hwf c (List.mem_cons_self _ _)
    obtain ⟨t, ht⟩ := Option.isSome_iff_exists.mp hc
    obtain ⟨n, hn⟩ := Option.isSome_iff_exists.mp hn
    obtain ⟨ts, ns, hloop, hlt, hln, hidx⟩ :=
      ih (st.add_sub_type_named t (std_string n))
        (fun d hd => hwf d (List.mem_cons_of_mem _ hd))
    refine ⟨t :: ts, std_string n :: ns, ?_, by simp [hlt], by simp [hln], ?_⟩
    · rw [hcons, ht, hn]
      simp only [Option.some_bind]
      rw [hloop]
      simp [TypeDescriptor.add_sub_type_named]
    · intro i d hd
      cases i with
      | zero =>
        simp only [List.getElem?_cons_zero, Option.some.injEq] at hd
        subst hd
        exact ⟨⟨n, hn, by simp⟩, ⟨t, ht, by simp⟩⟩
      | succ j =>
        simp only [List.getElem?_cons_succ] at hd
        simpa using hidx j d hd

/-- The struct case of a converter whose loop is `loop`: started from the empty
struct type, the loop returns the struct described by `IsStructOf`. -/
theorem struct_loop_isStructOf (conv : Value → Option TypeDescriptor)
    (loop : TypeDescriptor → List Value → Option TypeDescriptor)
    (hnil : ∀ st, loop st [] = some st)
    (hcons : ∀ st c rest, loop st (c :: rest) =
      (conv c).bind fun t => (stringMember c "name").bind fun n =>
        loop (st.add_sub_type_named t (std_string n)) rest)
    (cs : List Value)
    (hwf : ∀ c ∈ cs, (conv c).isSome ∧ (stringMember c "name").isSome) :
    IsStructOf conv cs (loop (TypeDescriptor.ofPrimitive .TYPE_STRUCT) cs) := by
  obtain ⟨ts, ns, hloop, hlt, hln, hidx⟩ :=
    struct_loop_fields conv loop hnil hcons cs (TypeDescriptor.ofPrimitive .TYPE_STRUCT) hwf
  refine ⟨_, hloop, rfl, ?_, ?_, ?_⟩
  · simpa [TypeDescriptor.ofPrimitive] using hlt
  · simpa [TypeDescriptor.ofPrimitive] using hln
  · intro i c hc
    obtain ⟨⟨n, hn, hfield⟩, ht⟩ := hidx i c hc
    have hfield2 : (TypeDescriptor.ofPrimitive .TYPE_STRUCT).field_names ++ ns = ns := by
      simp [TypeDescriptor.ofPrimitive]
    have htypes : (TypeDescriptor.ofPrimitive .TYPE_STRUCT).children ++ ts = ts := by
      simp [TypeDescriptor.ofPrimitive]
    refine ⟨⟨n, hn, ?_, ?_⟩, ?_⟩
    · simpa only [hfield2] using hfield
    · intro hnul
      rw [std_string_of_hasNoNul n hnul] at hfield
      simpa only [hfield2] using hfield
    · simpa only [htypes] using ht

/-- C2: an entry with the STRUCT tag whose `childColumns` is an array of
well-formed children (each child converts and has a string `name`) is
converted, by both readers, to a struct type with exactly one field per child;
the i-th field type is the conversion of the i-th child, and the i-th field
name is the i-th child's `name` as the C string that `std::string(const char*)`
builds: the name itself whenever it has no embedded NUL character. The Hive converter first reads the entry's
`precision` and `scale`, which a wire schema entry carries. -/
theorem C2_struct_fields_in_wire_order (e : Value) (cs : List Value)
    (htag : intMember e "type" = some TPrimitiveType.STRUCT)
    (hcc : e.member "childColumns" = some (.array cs)) :
    ((intMember e "precision").isSome → (intMember e "scale").isSome →
      (∀ c ∈ cs, (HiveJNIReader.convert_to_doris_type c).isSome ∧
        (stringMember c "name").isSome) →
      IsStructOf HiveJNIReader.convert_to_doris_type cs
        (HiveJNIReader.convert_to_doris_type e)) ∧
    ((∀ c ∈ cs, (RCBinaryJNIReader.convert_to_doris_type c).isSome ∧
        (stringMember c "name").isSome) →
      IsStructOf RCBinaryJNIReader.convert_to_doris_type cs
        (RCBinaryJNIReader.convert_to_doris_type e)) := by
  constructor
  · intro hp hs hwf
    obtain ⟨p, hp⟩ := Option.isSome_iff_exists.mp hp
    obtain ⟨s, hs⟩ := Option.isSome_iff_exists.mp hs
    rw [hive_convert_container htag hp hs (by decide) (by decide),
      containerCases_struct _ _ hcc]
    exact struct_loop_isStructOf _ _ hive_struct_children_nil
      hive_struct_children_cons cs hwf
  · intro hwf
    rw [rcbinary_convert_container htag (by decide),
      containerCases_struct _ _ hcc]
    exact struct_loop_isStructOf _ _ rcbinary_struct_children_nil
      rcbinary_struct_children_cons cs hwf

theorem sampleStructEntry_children_hive :
    ∀ c ∈ [Value.object [("name", .string "name"), ("type", .int 23), ("precision", .int 0),
              ("scale", .int 0)],
           Value.object [("name", .string "age"), ("type", .int 5), ("precision", .int 0),
              ("scale", .int 0)]],
      (HiveJNIReader.convert_to_doris_type c).isSome ∧ (stringMember c "name").isSome := by
  intro c hc
  simp only [List.mem_cons, List.mem_singleton, List.not_mem_nil, or_false] at hc
  rcases hc with hc | hc <;> subst hc
  · rw [hive_convert_scalar (t := 23) (p := 0) (s := 0) (by decide) (by decide)
      (by decide) (by decide)]
    exact ⟨rfl, by decide⟩
  · rw [hive_convert_scalar (t := 5) (p := 0) (s := 0) (by decide) (by decide)
      (by decide) (by decide)]
    exact ⟨rfl, by decide⟩

theorem sampleStructEntry_children_rc :
    ∀ c ∈ [Value.object [("name", .string "name"), ("type", .int 23), ("precision", .int 0),
              ("scale", .int 0)],
           Value.object [("name", .string "age"), ("type", .int 5), ("precision", .int 0),
              ("scale", .int 0)]],
      (RCBinaryJNIReader.convert_to_doris_type c).isSome ∧
        (stringMember c "name").isSome := by
  intro c hc
  simp only [List.mem_cons, List.mem_singleton, List.not_mem_nil, or_false] at hc
  rcases hc with hc | hc <;> subst hc
  · rw [rcbinary_convert_scalar (t := 23) (by decide) (by decide)]
    exact ⟨rfl, by decide⟩
  · rw [rcbinary_convert_scalar (t := 5) (by decide) (by decide)]
    exact ⟨rfl, by decide⟩

/-- C2, at the sample struct entry with the fields `name: STRING`, `age: INT`. -/
theorem C2_struct_fields_in_wire_order_witness :
    IsStructOf HiveJNIReader.convert_to_doris_type
      [Value.object [("name", .string "name"), ("type", .int 23), ("precision", .int 0),
         ("scale", .int 0)],
       Value.object [("name", .string "age"), ("type", .int 5), ("precision", .int 0),
         ("scale", .int 0)]]
      (HiveJNIReader.convert_to_doris_type sampleStructEntry) ∧
    IsStructOf RCBinaryJNIReader.convert_to_doris_type
      [Value.object [("name", .string "name"), ("type", .int 23), ("precision", .int 0),
         ("scale", .int 0)],
       Value.object [("name", .string "age"), ("type", .int 5), ("precision", .int 0),
         ("scale", .int 0)]]
      (RCBinaryJNIReader.convert_to_doris_type sampleStructEntry) :=
  have h := C2_struct_fields_in_wire_order sampleStructEntry _ (by decide) (by rfl)
  ⟨h.1 (by decide) (by decide) sampleStructEntry_children_hive,
    h.2 sampleStructEntry_children_rc⟩

/-- C3: for an entry with any of the four decimal-family tags, precision `p` and
scale `s`, the Hive converter returns the native decimal type of precision `p`
and scale `s`; the result is a function of `p` and `s` alone, so it is the same
for the four tags. -/
theorem C3_decimal_precision_scale (e : Value) (t p s : Int)
    (htag : intMember e "type" = some t) (hdec : t ∈ decimalTags)
    (hp : intMember e "precision" = some p) (hs : intMember e "scale" = some s) :
    HiveJNIReader.convert_to_doris_type e
        = some (TypeDescriptor.create_decimalv3_type p s) ∧
      (TypeDescriptor.create_decimalv3_type p s).type = .TYPE_DECIMAL ∧
      (TypeDescriptor.create_decimalv3_type p s).precision = p ∧
      (TypeDescriptor.create_decimalv3_type p s).scale = s :=
  ⟨hive_convert_decimal htag hp hs hdec, rfl, rfl, rfl⟩

/-- C3, at the sample DECIMAL64 entry of precision 10 and scale 2. -/
theorem C3_decimal_precision_scale_witness :
    HiveJNIReader.convert_to_doris_type sampleDecimalEntry
        = some (TypeDescriptor.create_decimalv3_type 10 2) ∧
      (TypeDescriptor.create_decimalv3_type 10 2).type = .TYPE_DECIMAL ∧
      (TypeDescriptor.create_decimalv3_type 10 2).precision = 10 ∧
      (TypeDescriptor.create_decimalv3_type 10 2).scale = 2 :=
  C3_decimal_precision_scale sampleDecimalEntry 30 10 2 (by decide) (by decide) (by decide)
    (by decide)

theorem scalarTable_subset : ∀ q ∈ scalarTable,
    q.1 ∈ HiveJNIReader.scalarTags ∧ thrift_to_type q.1 = q.2 := by
  decide

theorem scalarTable_injective : ∀ q ∈ scalarTable, ∀ q2 ∈ scalarTable,
    q.2 = q2.2 → q.1 = q2.1 := by
  decide

/-- C4: for every supported scalar tag `t` of the table, with native scalar `k`,
the Hive converter maps every entry with tag `t` to the scalar type `k` with no
sub-types and no field names, whatever the values of the entry's precision and
scale and whatever child columns it carries; and no other tag of the table has
the same native scalar (the mapping is 1:1). -/
theorem C4_scalar_tags_one_to_one (e : Value) (t : TPrimitiveType) (k : PrimitiveType)
    (hmem : (t, k) ∈ scalarTable) (htag : intMember e "type" = some t)
    (hp : (intMember e "precision").isSome) (hs : (intMember e "scale").isSome) :
    HiveJNIReader.convert_to_doris_type e = some (TypeDescriptor.ofPrimitive k) ∧
      (TypeDescriptor.ofPrimitive k).type = k ∧
      (TypeDescriptor.ofPrimitive k).children = [] ∧
      (TypeDescriptor.ofPrimitive k).field_names = [] ∧
      ∀ t2, (t2, k) ∈ scalarTable → t2 = t := by
  obtain ⟨p, hp⟩ := Option.isSome_iff_exists.mp hp
  obtain ⟨s, hs⟩ := Option.isSome_iff_exists.mp hs
  have h := scalarTable_subset (t, k) hmem
  refine ⟨?_, rfl, rfl, rfl, ?_⟩
  · rw [hive_convert_scalar htag hp hs h.1, h.2]
  · intro t2 h2
    exact scalarTable_injective (t2, k) h2 (t, k) hmem rfl

/-- C4, at the sample TINYINT entry. -/
theorem C4_scalar_tags_one_to_one_witness :
    HiveJNIReader.convert_to_doris_type sampleTinyintEntry
      = some (TypeDescriptor.ofPrimitive .TYPE_TINYINT) :=
  (C4_scalar_tags_one_to_one sampleTinyintEntry TPrimitiveType.TINYINT .TYPE_TINYINT
    (by decide) (by decide) (by decide) (by decide)).1

/-- C5: an entry whose tag is none of the case labels of a converter is
converted, without failure, to the INVALID sentinel with no sub-types and no
field names, whatever `childColumns` it carries. The Hive converter first reads
the entry's `precision` and `scale`, which a wire schema entry carries. -/
theorem C5_unsupported_tag_is_invalid (e : Value) (t : TPrimitiveType)
    (htag : intMember e "type" = some t) :
    ((intMember e "precision").isSome → (intMember e "scale").isSome →
      t ∉ HiveJNIReader.handledTags →
      HiveJNIReader.convert_to_doris_type e
        = some (TypeDescriptor.ofPrimitive .INVALID_TYPE)) ∧
    (t ∉ RCBinaryJNIReader.handledTags →
      RCBinaryJNIReader.convert_to_doris_type e
        = some (TypeDescriptor.ofPrimitive .INVALID_TYPE)) ∧
    (TypeDescriptor.ofPrimitive .INVALID_TYPE).children = [] ∧
    (TypeDescriptor.ofPrimitive .INVALID_TYPE).field_names = [] := by
  refine ⟨?_, ?_, rfl, rfl⟩
  · intro hp hs hn
    obtain ⟨p, hp⟩ := Option.isSome_iff_exists.mp hp
    obtain ⟨s, hs⟩ := Option.isSome_iff_exists.mp hs
    simp only [HiveJNIReader.handledTags, List.mem_append, not_or] at hn
    rw [hive_convert_container htag hp hs hn.1.1 hn.1.2,
      containerCases_other _ _ _ hn.2]
  · intro hn
    simp only [RCBinaryJNIReader.handledTags, List.mem_append, not_or] at hn
    rw [rcbinary_convert_container htag hn.1, containerCases_other _ _ _ hn.2]

/-- C5, at the sample entry with the HLL tag and a `childColumns` array. -/
theorem C5_unsupported_tag_is_invalid_witness :
    HiveJNIReader.convert_to_doris_type sampleUnsupportedEntry
        = some (TypeDescriptor.ofPrimitive .INVALID_TYPE) ∧
    RCBinaryJNIReader.convert_to_doris_type sampleUnsupportedEntry
        = some (TypeDescriptor.ofPrimitive .INVALID_TYPE) :=
  have h := C5_unsupported_tag_is_invalid sampleUnsupportedEntry 16 (by decide)
  ⟨h.1 (by decide) (by decide) (by decide), h.2.1 (by decide)⟩


/-! ## Comparing the two converters -/

theorem rcKindsOnly_iff (td : TypeDescriptor) :
    td.rcKindsOnly = true ↔ rcKind td.type = true ∧ rcKindsOnlyList td.children = true := by
  cases td
  simp [TypeDescriptor.rcKindsOnly]

theorem rcKindsOnlyList_iff (ts : List TypeDescriptor) :
    rcKindsOnlyList ts = true ↔ ∀ t ∈ ts, t.rcKindsOnly = true := by
  induction ts with
  | nil => simp [rcKindsOnlyList]
  | cons t rest ih => simp [rcKindsOnlyList, ih]

theorem rcKindsOnly_child {td t : TypeDescriptor} (h : td.rcKindsOnly = true)
    (ht : t ∈ td.children) : t.rcKindsOnly = true :=
  (rcKindsOnlyList_iff _).mp ((rcKindsOnly_iff td).mp h).2 t ht

/-- The Hive struct loop keeps the sub-types already added. -/
theorem hive_struct_children_mono (cs : List Value) :
    ∀ (st td : TypeDescriptor), HiveJNIReader.convert_struct_children st cs = some td →
      ∀ x ∈ st.children, x ∈ td.children := by
  induction cs with
  | nil =>
    intro st td h x hx
    rw [hive_struct_children_nil] at h
    cases h; exact hx
  | cons c rest ih =>
    intro st td h x hx
    rw [hive_struct_children_cons] at h
    cases hc : HiveJNIReader.convert_to_doris_type c with
    | none => simp [hc] at h
    | some t =>
      cases hn : stringMember c "name" with
      | none => simp [hc, hn] at h
      | some n =>
        simp only [hc, hn, Option.some_bind] at h
        exact ih _ td h x (by simp [TypeDescriptor.add_sub_type_named, hx])

/-- Where the RC-binary struct loop fails, the Hive struct loop fails, whatever
struct types the two loops started from. -/
theorem struct_loops_fail (cs : List Value) (hcs : ∀ c ∈ cs, ConvertersAgree c) :
    ∀ st st2 : TypeDescriptor, RCBinaryJNIReader.convert_struct_children st cs = none →
      HiveJNIReader.convert_struct_children st2 cs = none := by
  induction cs with
  | nil =>
    intro st st2 h
    simp [rcbinary_struct_children_nil] at h
  | cons c rest ih =>
    intro st st2 h
    have hc := hcs c (List.mem_cons_self _ _)
    have ih2 := ih (fun d hd => hcs d (List.mem_cons_of_mem _ hd))
    rw [rcbinary_struct_children_cons] at h
    rw [hive_struct_children_cons]
    cases hr : RCBinaryJNIReader.convert_to_doris_type c with
    | none => simp [hc.1 hr]
    | some t2 =>
      cases hn : stringMember c "name" with
      | none => cases HiveJNIReader.convert_to_doris_type c <;> simp
      | some n =>
        simp only [hr, hn, Option.some_bind] at h
        cases hh : HiveJNIReader.convert_to_doris_type c with
        | none => simp
        | some t => simpa using ih2 _ _ h

/-- A result of the Hive struct loop built from RC-binary kinds only is also
the result of the RC-binary struct loop. -/
theorem struct_loops_agree (cs : List Value) (hcs : ∀ c ∈ cs, ConvertersAgree c) :
    ∀ st td : TypeDescriptor, HiveJNIReader.convert_struct_children st cs = some td →
      td.rcKindsOnly = true → RCBinaryJNIReader.convert_struct_children st cs = some td := by
  induction cs with
  | nil =>
    intro st td h _
    rw [hive_struct_children_nil] at h
    rw [rcbinary_struct_children_nil, h]
  | cons c rest ih =>
    intro st td hl htd
    have hc := hcs c (List.mem_cons_self _ _)
    have ih2 := ih (fun d hd => hcs d (List.mem_cons_of_mem _ hd))
    rw [hive_struct_children_cons] at hl
    rw [rcbinary_struct_children_cons]
    cases hh : HiveJNIReader.convert_to_doris_type c with
    | none => simp [hh] at hl
    | some t =>
      cases hn : stringMember c "name" with
      | none => simp [hh, hn] at hl
      | some n =>
        simp only [hh, hn, Option.some_bind] at hl
        have hmem : t ∈ td.children :=
          hive_struct_children_mono rest _ td hl t
            (by simp [TypeDescriptor.add_sub_type_named])
        rw [hc.2 t hh (rcKindsOnly_child htd hmem)]
        simp only [Option.some_bind]
        exact ih2 _ td hl htd

theorem hiveOnly_scalar_kind : ∀ t ∈ HiveJNIReader.scalarTags,
    t ∉ RCBinaryJNIReader.scalarTags →
      rcKind (thrift_to_type t) = false ∧ t ∉ containerTags := by
  decide

theorem rc_scalar_is_hive_scalar : ∀ t ∈ RCBinaryJNIReader.scalarTags,
    t ∈ HiveJNIReader.scalarTags := by
  decide

theorem decimal_not_rc : ∀ t ∈ decimalTags,
    t ∉ RCBinaryJNIReader.scalarTags ∧ t ∉ containerTags := by
  decide

theorem agree_of_eq {x y : Option TypeDescriptor} (h : x = y) :
    (x = none → y = none) ∧
    (∀ td, y = some td → td.rcKindsOnly = true → x = some td) := by
  subst h
  exact ⟨id, fun _ h _ => h⟩

theorem containerCases_no_children (conv conv2 : Value → Option TypeDescriptor)
    (loop loop2 : TypeDescriptor → List Value → Option TypeDescriptor) {e : Value} (t : Int)
    (hcc : e.member "childColumns" = none) :
    containerCases conv loop e t = containerCases conv2 loop2 e t := by
  simp [containerCases, hcc]

theorem containerCases_array_none (conv : Value → Option TypeDescriptor)
    (loop : TypeDescriptor → List Value → Option TypeDescriptor) {e cc : Value}
    (hcc : e.member "childColumns" = some cc) (h0 : cc.index 0 = none) :
    containerCases conv loop e TPrimitiveType.ARRAY = none := by
  simp [containerCases, hcc, h0]

theorem containerCases_map_none (conv : Value → Option TypeDescriptor)
    (loop : TypeDescriptor → List Value → Option TypeDescriptor) {e cc : Value}
    (hcc : e.member "childColumns" = some cc) (h1 : cc.index 1 = none) :
    containerCases conv loop e TPrimitiveType.MAP = none := by
  have hne : TPrimitiveType.MAP ≠ TPrimitiveType.ARRAY := by decide
  simp only [containerCases, if_neg hne, if_true, hcc, h1, Option.some_bind,
    Option.none_bind]

theorem containerCases_struct_none (conv : Value → Option TypeDescriptor)
    (loop : TypeDescriptor → List Value → Option TypeDescriptor) {e cc : Value}
    (hcc : e.member "childColumns" = some cc) (hel : cc.elements = none) :
    containerCases conv loop e TPrimitiveType.STRUCT = none := by
  have hne1 : TPrimitiveType.STRUCT ≠ TPrimitiveType.ARRAY := by decide
  have hne2 : TPrimitiveType.STRUCT ≠ TPrimitiveType.MAP := by decide
  simp only [containerCases, if_neg hne1, if_neg hne2, if_true, hcc, hel, Option.some_bind,
    Option.none_bind]

/-- The shared container cases agree when the two converters agree on every
proper part of the entry. -/
theorem containerCases_agree (e : Value) (t : Int)
    (ih : ∀ c : Value, sizeOf c < sizeOf e → ConvertersAgree c) :
    (containerCases RCBinaryJNIReader.convert_to_doris_type
        RCBinaryJNIReader.convert_struct_children e t = none →
      containerCases HiveJNIReader.convert_to_doris_type
        HiveJNIReader.convert_struct_children e t = none) ∧
    (∀ td, containerCases HiveJNIReader.convert_to_doris_type
        HiveJNIReader.convert_struct_children e t = some td → td.rcKindsOnly = true →
      containerCases RCBinaryJNIReader.convert_to_doris_type
        RCBinaryJNIReader.convert_struct_children e t = some td) := by
  cases hcc : e.member "childColumns" with
  | none => exact agree_of_eq (containerCases_no_children _ _ _ _ t hcc)
  | some cc =>
    have hsz := Value.member_sizeOf hcc
    by_cases ha : t = TPrimitiveType.ARRAY
    · subst ha
      cases h0 : cc.index 0 with
      | none =>
        rw [containerCases_array_none _ _ hcc h0, containerCases_array_none _ _ hcc h0]
        exact agree_of_eq rfl
      | some c0 =>
        have hc := ih c0 (lt_trans (Value.index_sizeOf h0) hsz)
        rw [containerCases_array _ _ hcc h0, containerCases_array _ _ hcc h0]
        constructor
        · intro h
          cases hr : RCBinaryJNIReader.convert_to_doris_type c0 with
          | none => simp [hc.1 hr]
          | some t2 => simp [hr] at h
        · intro td h htd
          cases hh : HiveJNIReader.convert_to_doris_type c0 with
          | none => simp [hh] at h
          | some t0 =>
            simp only [hh, Option.some_bind, Option.some.injEq] at h
            subst h
            have : t0.rcKindsOnly = true :=
              rcKindsOnly_child htd (by simp [TypeDescriptor.add_sub_type,
                TypeDescriptor.ofPrimitive])
            rw [hc.2 t0 hh this]; rfl
    · by_cases hm : t = TPrimitiveType.MAP
      · subst hm
        cases h1 : cc.index 1 with
        | none =>
          rw [containerCases_map_none _ _ hcc h1, containerCases_map_none _ _ hcc h1]
          exact agree_of_eq rfl
        | some c1 =>
          have hc := ih c1 (lt_trans (Value.index_sizeOf h1) hsz)
          rw [containerCases_map _ _ hcc h1, containerCases_map _ _ hcc h1]
          constructor
          · intro h
            cases hr : RCBinaryJNIReader.convert_to_doris_type c1 with
            | none => simp [hc.1 hr]
            | some t2 => simp [hr] at h
          · intro td h htd
            cases hh : HiveJNIReader.convert_to_doris_type c1 with
            | none => simp [hh] at h
            | some t0 =>
              simp only [hh, Option.some_bind, Option.some.injEq] at h
              subst h
              have : t0.rcKindsOnly = true :=
                rcKindsOnly_child htd (by simp [mapOfString])
              rw [hc.2 t0 hh this]; rfl
      · by_cases hst : t = TPrimitiveType.STRUCT
        · subst hst
          cases hel : cc.elements with
          | none =>
            rw [containerCases_struct_none _ _ hcc hel,
              containerCases_struct_none _ _ hcc hel]
            exact agree_of_eq rfl
          | some cs =>
            have hcs : ∀ c ∈ cs, ConvertersAgree c := fun c hmem =>
              ih c (lt_trans (List.sizeOf_lt_of_mem hmem)
                (lt_trans (Value.elements_sizeOf hel) hsz))
            have hne1 : TPrimitiveType.STRUCT ≠ TPrimitiveType.ARRAY := by decide
            have hne2 : TPrimitiveType.STRUCT ≠ TPrimitiveType.MAP := by decide
            simp only [containerCases, if_neg hne1, if_neg hne2, if_true, hcc, hel,
              Option.some_bind]
            exact ⟨struct_loops_fail cs hcs _ _, struct_loops_agree cs hcs _⟩
        · have hn : t ∉ containerTags := by simp [containerTags, ha, hm, hst]
          rw [containerCases_other _ _ _ hn, containerCases_other _ _ _ hn]
          exact agree_of_eq rfl

theorem convertersAgree_aux : ∀ (n : Nat) (e : Value), sizeOf e < n → ConvertersAgree e := by
  intro n
  induction n with
  | zero => intro e h; omega
  | succ n ih =>
    intro e he
    have ih2 : ∀ c : Value, sizeOf c < sizeOf e → ConvertersAgree c :=
      fun c hc => ih c (by omega)
    unfold ConvertersAgree
    rw [hive_convert_eq, rcbinary_convert_eq]
    cases htag : intMember e "type" with
    | none => simp
    | some t =>
      cases hp : intMember e "precision" with
      | none => simp
      | some p =>
        cases hs : intMember e "scale" with
        | none => simp
        | some s =>
          simp only [Option.some_bind]
          by_cases h1 : t ∈ RCBinaryJNIReader.scalarTags
          · simp [h1, rc_scalar_is_hive_scalar t h1]
          · by_cases h2 : t ∈ HiveJNIReader.scalarTags
            · have hk := hiveOnly_scalar_kind t h2 h1
              rw [if_neg h1, if_pos h2, containerCases_other _ _ _ hk.2]
              refine ⟨by simp, ?_⟩
              intro td h htd
              simp only [Option.some.injEq] at h
              subst h
              have := ((rcKindsOnly_iff _).mp htd).1
              simp [TypeDescriptor.ofPrimitive, hk.1] at this
            · by_cases h3 : t ∈ decimalTags
              · have hk := decimal_not_rc t h3
                rw [if_neg h1, if_neg h2, if_pos h3, containerCases_other _ _ _ hk.2]
                refine ⟨by simp, ?_⟩
                intro td h htd
                simp only [Option.some.injEq] at h
                subst h
                have := ((rcKindsOnly_iff _).mp htd).1
                simp [TypeDescriptor.create_decimalv3_type, rcKind] at this
              · rw [if_neg h1, if_neg h2, if_neg h3]
                exact containerCases_agree e t ih2

/-- C6 as stated fails: on the sample TINYINT entry the Hive converter returns
the TINYINT scalar and the RC-binary converter the INVALID sentinel; and on the
sample INT entry without precision and scale the Hive converter fails while
the RC-binary converter returns the INT scalar. -/
theorem C6_converters_differ :
    HiveJNIReader.convert_to_doris_type sampleTinyintEntry
        = some (TypeDescriptor.ofPrimitive .TYPE_TINYINT) ∧
    RCBinaryJNIReader.convert_to_doris_type sampleTinyintEntry
        = some (TypeDescriptor.ofPrimitive .INVALID_TYPE) ∧
    HiveJNIReader.convert_to_doris_type sampleBareIntEntry = none ∧
    RCBinaryJNIReader.convert_to_doris_type sampleBareIntEntry
        = some (TypeDescriptor.ofPrimitive .TYPE_INT) := by
  refine ⟨?_, ?_, ?_, ?_⟩
  · rw [hive_convert_scalar (t := 3) (p := 0) (s := 0) (by decide) (by decide)
      (by decide) (by decide)]
    rfl
  · rw [rcbinary_convert_container (t := 3) (by decide) (by decide),
      containerCases_other _ _ _ (by decide)]
  · rw [hive_convert_eq]
    have h : intMember sampleBareIntEntry "precision" = none := by decide
    rw [h]
    cases intMember sampleBareIntEntry "type" <;> rfl
  · rw [rcbinary_convert_scalar (t := 5) (by decide) (by decide)]
    rfl

/-- C6, amended: on every entry, where the RC-binary converter fails the Hive
converter fails too, and whenever the Hive converter returns a type in which
only kinds of the RC-binary converter occur (its seven scalars, the containers
and INVALID), the RC-binary converter returns the same type. -/
theorem C6_converters_agree_on_rc_kinds (e : Value) :
    (RCBinaryJNIReader.convert_to_doris_type e = none →
      HiveJNIReader.convert_to_doris_type e = none) ∧
    (∀ td, HiveJNIReader.convert_to_doris_type e = some td → td.rcKindsOnly = true →
      RCBinaryJNIReader.convert_to_doris_type e = some td) :=
  convertersAgree_aux (sizeOf e + 1) e (Nat.lt_succ_self _)

/-- C6 amended, at the sample map entry: the Hive result map(STRING, BIGINT)
has RC-binary kinds only and is the RC-binary result. -/
theorem C6_converters_agree_on_rc_kinds_witness :
    RCBinaryJNIReader.convert_to_doris_type sampleMapEntry
      = some (mapOfString (TypeDescriptor.ofPrimitive .TYPE_BIGINT)) :=
  (C6_converters_agree_on_rc_kinds sampleMapEntry).2 _
    (by
      rw [hive_convert_container (t := TPrimitiveType.MAP) (p := 0) (s := 0) (by decide)
        (by decide) (by decide) (by decide) (by decide),
        containerCases_map (v := .object [("type", .int 6), ("precision", .int 0),
          ("scale", .int 0)]) _ _ (by rfl) (by rfl),
        hive_convert_scalar (t := 6) (p := 0) (s := 0) (by decide) (by decide)
          (by decide) (by decide)]
      rfl)
    (by decide)


/-! ## Parameter maps -/

namespace ParamMap

theorem find_append (m m2 : ParamMap) (key : String) :
    find (m ++ m2) key = (find m key).or (find m2 key) := by
  induction m with
  | nil => simp [find]
  | cons kv rest ih =>
    obtain ⟨k, v⟩ := kv
    simp only [List.cons_append, find]
    split <;> simp [ih]

theorem find_insert (m : ParamMap) (kv : String × String) (key : String) :
    find (m.insert kv) key = (find m key).or (if kv.1 = key then some kv.2 else none) := by
  unfold insert
  cases h : find m kv.1 with
  | some w =>
    simp only
    by_cases hk : kv.1 = key
    · subst hk; simp [h]
    · simp [hk]
  | none =>
    simp only [find_append]
    obtain ⟨k, v⟩ := kv
    simp [find]

theorem find_insert_range (entries : List (String × String)) :
    ∀ (m : ParamMap) (key : String),
      find (m.insert_range entries) key = (find m key).or (find entries key) := by
  induction entries with
  | nil => intro m key; simp [insert_range, find]
  | cons kv rest ih =>
    intro m key
    have h := ih (m.insert kv) key
    simp only [insert_range, List.foldl_cons] at h ⊢
    rw [h, find_insert]
    obtain ⟨k, v⟩ := kv
    simp only [find]
    by_cases hk : k = key
    · simp [hk]
      cases find m key <;> simp
    · simp [hk]

theorem find_ofList (entries : List (String × String)) (key : String) :
    find (insert_range [] entries) key = find entries key := by
  rw [find_insert_range]; simp [find]

end ParamMap


/-! ### The descriptor loop -/

theorem collect_fields_go (g : TypeDescriptor → String) (ds : List SlotDescriptor) :
    ∀ st : FieldStreams, st.index ≠ 0 →
      (ds.foldl (collect_field g) st).required_fields
          = String.intercalate.go st.required_fields "," (ds.map (·.col_name)) ∧
      (ds.foldl (collect_field g) st).columns_types
          = String.intercalate.go st.columns_types "#" (ds.map (fun d => g d.type)) ∧
      (ds.foldl (collect_field g) st).column_names
          = st.column_names ++ ds.map (·.col_name) := by
  induction ds with
  | nil => intro st _; simp [String.intercalate.go]
  | cons d rest ih =>
    intro st hst
    have h := ih (collect_field g st d) (by simp [collect_field, hst])
    simp only [List.foldl_cons, List.map_cons, String.intercalate.go]
    rw [h.1, h.2.1, h.2.2]
    simp [collect_field, hst]

/-- The descriptor loop joins the column names with `,` and the encoded types
with `#`, in descriptor order, and collects the names in the same order. -/
theorem collect_fields_joined (g : TypeDescriptor → String) (ds : List SlotDescriptor) :
    (collect_fields g ds).required_fields = String.intercalate "," (ds.map (·.col_name)) ∧
    (collect_fields g ds).columns_types
        = String.intercalate "#" (ds.map (fun d => g d.type)) ∧
    (collect_fields g ds).column_names = ds.map (·.col_name) := by
  cases ds with
  | nil => simp [collect_fields, String.intercalate]
  | cons d rest =>
    have h := collect_fields_go g rest
      (collect_field g
        { required_fields := "", columns_types := "", column_names := [], index := 0 } d)
      (by simp [collect_field])
    simp only [collect_fields, List.foldl_cons, List.map_cons, String.intercalate]
    rw [h.1, h.2.1, h.2.2]
    simp [collect_field]


/-! ### Lookups in the built parameter maps -/

theorem hive_scan_find (g : TypeDescriptor → String) (r : JniReader)
    (key : String) :
    (HiveJNIReader.init_fetch_table_reader g r).scanner_params.find key =
      (ParamMap.find (HiveJNIReader.scan_initializer r) key).or
        (if r.get_file_type = TFileType.FILE_S3 then ParamMap.find r.params.properties key
         else none) := by
  simp only [HiveJNIReader.init_fetch_table_reader]
  split
  · rw [ParamMap.find_insert_range, ParamMap.find_ofList]
  · rw [ParamMap.find_ofList]; simp

theorem hive_schema_find (r : JniReader) (key : String) :
    (HiveJNIReader.init_fetch_table_schema_reader r).scanner_params.find key =
      (ParamMap.find (HiveJNIReader.schema_initializer r) key).or
        (ParamMap.find r.params.properties key) := by
  simp only [HiveJNIReader.init_fetch_table_schema_reader]
  rw [ParamMap.find_insert_range, ParamMap.find_ofList]

theorem rcbinary_scan_find (g : TypeDescriptor → String) (r : JniReader)
    (key : String) :
    (RCBinaryJNIReader.init_fetch_table_reader g r).scanner_params.find key =
      (ParamMap.find (RCBinaryJNIReader.scan_initializer
          (collect_fields g r.file_slot_descs).columns_types r) key).or
        (if r.get_file_type = TFileType.FILE_S3 then ParamMap.find r.params.properties key
         else none) := by
  simp only [RCBinaryJNIReader.init_fetch_table_reader]
  split
  · rw [ParamMap.find_insert_range, ParamMap.find_ofList]
  · rw [ParamMap.find_ofList]; simp

theorem rcbinary_schema_find (r : JniReader) (key : String) :
    (RCBinaryJNIReader.init_fetch_table_schema_reader r).scanner_params.find key =
      (ParamMap.find (RCBinaryJNIReader.schema_initializer r) key).or
        (ParamMap.find r.params.properties key) := by
  simp only [RCBinaryJNIReader.init_fetch_table_schema_reader]
  rw [ParamMap.find_insert_range, ParamMap.find_ofList]

/-- In every map of the RC-binary scan builder, `columns_types` is the encoded
descriptor types joined with `#` in descriptor order, and `required_fields` is
the literal `col_tinyint`. -/
theorem rcbinary_scan_columns_types (g : TypeDescriptor → String) (r : JniReader) :
    (RCBinaryJNIReader.init_fetch_table_reader g r).scanner_params.find "columns_types"
      = some (String.intercalate "#" (r.file_slot_descs.map (fun d => g d.type))) ∧
    (RCBinaryJNIReader.init_fetch_table_reader g r).scanner_params.find "required_fields"
      = some "col_tinyint" := by
  rw [rcbinary_scan_find, rcbinary_scan_find,
    (collect_fields_joined g r.file_slot_descs).2.1]
  constructor <;> simp [RCBinaryJNIReader.scan_initializer, ParamMap.find]

/-- In every map of the Hive scan builder, `required_fields` and `columns_types`
are the two fixed literals, whatever the column descriptors are. -/
theorem hive_scan_fixed_fields (g : TypeDescriptor → String) (r : JniReader) :
    (HiveJNIReader.init_fetch_table_reader g r).scanner_params.find "required_fields"
      = some HiveJNIReader.fixed_columns_names ∧
    (HiveJNIReader.init_fetch_table_reader g r).scanner_params.find "columns_types"
      = some HiveJNIReader.fixed_columns_types := by
  rw [hive_scan_find, hive_scan_find]
  constructor <;> simp [HiveJNIReader.scan_initializer, ParamMap.find]

/-- When the storage kind is not FILE_S3, the map of a scan builder is the
initializer list alone: the source properties are not read. -/
theorem scan_params_without_properties (g : TypeDescriptor → String) (r : JniReader)
    (h : r.get_file_type ≠ TFileType.FILE_S3) :
    (HiveJNIReader.init_fetch_table_reader g r).scanner_params
      = ParamMap.insert_range [] (HiveJNIReader.scan_initializer r) ∧
    (RCBinaryJNIReader.init_fetch_table_reader g r).scanner_params
      = ParamMap.insert_range [] (RCBinaryJNIReader.scan_initializer
          (collect_fields g r.file_slot_descs).columns_types r) := by
  simp [HiveJNIReader.init_fetch_table_reader, RCBinaryJNIReader.init_fetch_table_reader, h]

/-! ## The parameter builders -/

/-- C7, evaluated on the sample reader with the descriptors `id: string` and
`tags: array(string)` over remote object storage: the descriptor loop computes
the joined texts `id,tags` and `string#array<string>`, but the map of the Hive
builder carries its two fixed literals under `required_fields` and
`columns_types`, and the map of the RC-binary builder carries `col_tinyint`
under `required_fields` (its `columns_types` is the joined text). -/
theorem C7_required_fields_not_from_descriptors :
    (collect_fields sampleJniType sampleDescs).required_fields = "id,tags" ∧
    (collect_fields sampleJniType sampleDescs).columns_types = "string#array<string>" ∧
    (HiveJNIReader.init_fetch_table_reader sampleJniType
        (sampleReader 2 [])).scanner_params.find "required_fields"
      = some HiveJNIReader.fixed_columns_names ∧
    (HiveJNIReader.init_fetch_table_reader sampleJniType
        (sampleReader 2 [])).scanner_params.find "columns_types"
      = some HiveJNIReader.fixed_columns_types ∧
    (RCBinaryJNIReader.init_fetch_table_reader sampleJniType
        (sampleReader 2 [])).scanner_params.find "required_fields"
      = some "col_tinyint" ∧
    (RCBinaryJNIReader.init_fetch_table_reader sampleJniType
        (sampleReader 2 [])).scanner_params.find "columns_types"
      = some "string#array<string>" ∧
    HiveJNIReader.fixed_columns_names ≠ "id,tags" ∧
    HiveJNIReader.fixed_columns_types ≠ "string#array<string>" := by
  refine ⟨by decide, by decide, ?_, ?_, by decide, by decide, by decide, by decide⟩
  · exact (hive_scan_fixed_fields _ _).1
  · exact (hive_scan_fixed_fields _ _).2


/-- C8 as stated fails: on the sample reader over local storage (kind 0, no
source properties) the map of the RC-binary scan builder has no `file_format`,
and the map of the RC-binary discovery builder has no `file_format`, no
`required_fields` and no `columns_types`. -/
theorem C8_rcbinary_maps_lack_keys :
    (RCBinaryJNIReader.init_fetch_table_reader sampleJniType
        (sampleReader 0 [])).scanner_params.find "file_format" = none ∧
    (RCBinaryJNIReader.init_fetch_table_schema_reader
        (sampleReader 0 [])).scanner_params.find "file_format" = none ∧
    (RCBinaryJNIReader.init_fetch_table_schema_reader
        (sampleReader 0 [])).scanner_params.find "required_fields" = none ∧
    (RCBinaryJNIReader.init_fetch_table_schema_reader
        (sampleReader 0 [])).scanner_params.find "columns_types" = none := by
  refine ⟨by decide, by decide, by decide, by decide⟩

/-- C8, amended: every map built by either builder of the Hive reader contains
the six keys `uri`, `file_type`, `file_format`, `is_get_table_schema`,
`required_fields` and `columns_types`; every map built by the RC-binary scan
builder contains `uri`, `file_type`, `is_get_table_schema`, `required_fields`
and `columns_types`; every map built by the RC-binary discovery builder
contains `uri`, `file_type` and `is_get_table_schema`. -/
theorem C8_keys_of_each_builder (g : TypeDescriptor → String) (r : JniReader) :
    (∀ k ∈ minimalKeys,
      ((HiveJNIReader.init_fetch_table_reader g r).scanner_params.find k).isSome ∧
      ((HiveJNIReader.init_fetch_table_schema_reader r).scanner_params.find k).isSome) ∧
    (∀ k ∈ RCBinaryJNIReader.scanKeys,
      ((RCBinaryJNIReader.init_fetch_table_reader g r).scanner_params.find k).isSome) ∧
    (∀ k ∈ RCBinaryJNIReader.schemaKeys,
      ((RCBinaryJNIReader.init_fetch_table_schema_reader r).scanner_params.find k).isSome) := by
  refine ⟨?_, ?_, ?_⟩
  · intro k hk
    rw [hive_scan_find, hive_schema_find]
    simp only [minimalKeys, List.mem_cons, List.mem_singleton, List.not_mem_nil,
      or_false] at hk
    rcases hk with hk | hk | hk | hk | hk | hk <;> subst hk <;>
      simp [HiveJNIReader.scan_initializer, HiveJNIReader.schema_initializer, ParamMap.find]
  · intro k hk
    rw [rcbinary_scan_find]
    simp only [RCBinaryJNIReader.scanKeys, List.mem_cons, List.mem_singleton,
      List.not_mem_nil, or_false] at hk
    rcases hk with hk | hk | hk | hk | hk <;> subst hk <;>
      simp [RCBinaryJNIReader.scan_initializer, ParamMap.find]
  · intro k hk
    rw [rcbinary_schema_find]
    simp only [RCBinaryJNIReader.schemaKeys, List.mem_cons, List.mem_singleton,
      List.not_mem_nil, or_false] at hk
    rcases hk with hk | hk | hk <;> subst hk <;>
      simp [RCBinaryJNIReader.schema_initializer, ParamMap.find]

/-- C8 amended, at the sample reader over remote object storage and the key
`file_format` (Hive builders) and `columns_types`, `uri` (RC-binary builders). -/
theorem C8_keys_of_each_builder_witness :
    ((HiveJNIReader.init_fetch_table_reader sampleJniType
        (sampleReader 2 [])).scanner_params.find "file_format").isSome ∧
    ((HiveJNIReader.init_fetch_table_schema_reader
        (sampleReader 2 [])).scanner_params.find "file_format").isSome ∧
    ((RCBinaryJNIReader.init_fetch_table_reader sampleJniType
        (sampleReader 2 [])).scanner_params.find "columns_types").isSome ∧
    ((RCBinaryJNIReader.init_fetch_table_schema_reader
        (sampleReader 2 [])).scanner_params.find "uri").isSome :=
  have h := C8_keys_of_each_builder sampleJniType (sampleReader 2 [])
  ⟨(h.1 "file_format" (by decide)).1, (h.1 "file_format" (by decide)).2,
    h.2.1 "columns_types" (by decide), h.2.2 "uri" (by decide)⟩

/-- C9, evaluated on two discovery sessions over local storage (kind 0, which is
not FILE_S3) that differ only in the source properties: the built maps differ,
in both readers, because the second map contains the property entry. -/
theorem C9_discovery_merges_properties_for_local_storage :
    (sampleReader 0 [("s3.secret_key", "SK")]).get_file_type ≠ TFileType.FILE_S3 ∧
    (HiveJNIReader.init_fetch_table_schema_reader
        (sampleReader 0 [])).scanner_params.find "s3.secret_key" = none ∧
    (HiveJNIReader.init_fetch_table_schema_reader
        (sampleReader 0 [("s3.secret_key", "SK")])).scanner_params.find "s3.secret_key"
      = some "SK" ∧
    (RCBinaryJNIReader.init_fetch_table_schema_reader
        (sampleReader 0 [])).scanner_params.find "s3.secret_key" = none ∧
    (RCBinaryJNIReader.init_fetch_table_schema_reader
        (sampleReader 0 [("s3.secret_key", "SK")])).scanner_params.find "s3.secret_key"
      = some "SK" := by
  refine ⟨by decide, by decide, by decide, by decide, by decide⟩

/-- C10 as stated fails: on the sample reader over remote object storage, with
the split at offset 100 of size 200, the map of the RC-binary scan builder has
neither split key; and a discovery map contains `split_size` when the source
properties have an entry of that name. -/
theorem C10_split_keys_not_tied_to_scan :
    (RCBinaryJNIReader.init_fetch_table_reader sampleJniType
        (sampleReader 2 [])).scanner_params.find "split_start_offset" = none ∧
    (RCBinaryJNIReader.init_fetch_table_reader sampleJniType
        (sampleReader 2 [])).scanner_params.find "split_size" = none ∧
    (HiveJNIReader.init_fetch_table_schema_reader
        (sampleReader 2 [("split_size", "1")])).scanner_params.find "split_size"
      = some "1" := by
  refine ⟨by decide, by decide, by decide⟩

/-- C10, amended: every map built by the Hive scan builder contains
`split_start_offset` and `split_size`, set to the decimal strings of the
split's start offset and size; the RC-binary scan builder and the two discovery
builders do not set these keys, so their maps contain neither key whenever the
source properties contain neither. -/
theorem C10_split_keys_of_each_builder (g : TypeDescriptor → String) (r : JniReader) :
    (HiveJNIReader.init_fetch_table_reader g r).scanner_params.find "split_start_offset"
      = some (toString r.range.start_offset) ∧
    (HiveJNIReader.init_fetch_table_reader g r).scanner_params.find "split_size"
      = some (toString r.range.size) ∧
    (∀ k ∈ splitKeys, ParamMap.find r.params.properties k = none →
      (RCBinaryJNIReader.init_fetch_table_reader g r).scanner_params.find k = none ∧
      (HiveJNIReader.init_fetch_table_schema_reader r).scanner_params.find k = none ∧
      (RCBinaryJNIReader.init_fetch_table_schema_reader r).scanner_params.find k = none) := by
  refine ⟨?_, ?_, ?_⟩
  · rw [hive_scan_find]
    simp [HiveJNIReader.scan_initializer, ParamMap.find]
  · rw [hive_scan_find]
    simp [HiveJNIReader.scan_initializer, ParamMap.find]
  · intro k hk hprops
    rw [rcbinary_scan_find, hive_schema_find,
      rcbinary_schema_find, hprops]
    simp only [splitKeys, List.mem_cons, List.mem_singleton, List.not_mem_nil,
      or_false] at hk
    rcases hk with hk | hk <;> subst hk <;>
      simp [RCBinaryJNIReader.scan_initializer, HiveJNIReader.schema_initializer,
        RCBinaryJNIReader.schema_initializer, ParamMap.find]

/-- C10 amended, at the sample reader (split at offset 100 of size 200, remote
object storage, one source property): the Hive scan map has
`split_start_offset = "100"` and `split_size = "200"`, and the Hive discovery
map has no `split_size`. -/
theorem C10_split_keys_of_each_builder_witness :
    (HiveJNIReader.init_fetch_table_reader sampleJniType
        (sampleReader 2 [("s3.secret_key", "SK")])).scanner_params.find "split_start_offset"
      = some "100" ∧
    (HiveJNIReader.init_fetch_table_reader sampleJniType
        (sampleReader 2 [("s3.secret_key", "SK")])).scanner_params.find "split_size"
      = some "200" ∧
    (HiveJNIReader.init_fetch_table_schema_reader
        (sampleReader 2 [("s3.secret_key", "SK")])).scanner_params.find "split_size"
      = none :=
  have h := C10_split_keys_of_each_builder sampleJniType
    (sampleReader 2 [("s3.secret_key", "SK")])
  ⟨h.1, h.2.1, (h.2.2 "split_size" (by decide) (by decide)).2.1⟩

/-! ## The schema flag, the storage kind and the merged properties -/

/-- C11: in both readers and for every reader input, whatever the source
properties contain, the map built by `init_fetch_table_schema_reader` has
`is_get_table_schema = "true"`, the map built by `init_fetch_table_reader` has
`is_get_table_schema = "false"`, and in all four maps `file_type` is the decimal
string (`std::to_string`) of the storage kind resolved by `get_file_type`. -/
theorem C11_schema_flag_and_file_type (g : TypeDescriptor → String) (r : JniReader) :
    (HiveJNIReader.init_fetch_table_schema_reader r).scanner_params.find
        "is_get_table_schema" = some "true" ∧
    (RCBinaryJNIReader.init_fetch_table_schema_reader r).scanner_params.find
        "is_get_table_schema" = some "true" ∧
    (HiveJNIReader.init_fetch_table_reader g r).scanner_params.find
        "is_get_table_schema" = some "false" ∧
    (RCBinaryJNIReader.init_fetch_table_reader g r).scanner_params.find
        "is_get_table_schema" = some "false" ∧
    (HiveJNIReader.init_fetch_table_schema_reader r).scanner_params.find "file_type"
      = some (toString r.get_file_type) ∧
    (RCBinaryJNIReader.init_fetch_table_schema_reader r).scanner_params.find "file_type"
      = some (toString r.get_file_type) ∧
    (HiveJNIReader.init_fetch_table_reader g r).scanner_params.find "file_type"
      = some (toString r.get_file_type) ∧
    (RCBinaryJNIReader.init_fetch_table_reader g r).scanner_params.find "file_type"
      = some (toString r.get_file_type) := by
  simp only [hive_scan_find, hive_schema_find, rcbinary_scan_find, rcbinary_schema_find]
  refine ⟨?_, ?_, ?_, ?_, ?_, ?_, ?_, ?_⟩ <;>
    simp [HiveJNIReader.scan_initializer, HiveJNIReader.schema_initializer,
      RCBinaryJNIReader.scan_initializer, RCBinaryJNIReader.schema_initializer,
      ParamMap.find]

/-- C18: `get_file_type` (the same text in both readers) returns the split's
storage kind whenever the split's `file_type` field is set, whatever the
scan-wide kind is, and the scan-wide kind whenever the field is not set; so,
when the two kinds differ, it returns the scan-wide kind exactly when the
field is not set. -/
theorem C18_file_type_prefers_split (r : JniReader) :
    (r.range.isset_file_type = true → r.get_file_type = r.range.file_type) ∧
    (r.range.isset_file_type = false → r.get_file_type = r.params.file_type) ∧
    (r.range.file_type ≠ r.params.file_type →
      (r.get_file_type = r.params.file_type ↔ r.range.isset_file_type = false)) := by
  unfold JniReader.get_file_type
  cases h : r.range.isset_file_type
  · simp
  · simp only [if_true, true_implies, false_implies, true_and, Bool.true_eq_false,
      iff_false]
    intro hne
    simpa using hne

/-- C18, at a reader whose split sets `file_type` to 3 while the scan-wide kind
is 2, and at the sample reader whose split does not set it. -/
theorem C18_file_type_prefers_split_witness :
    ({ sampleReader 2 [] with
        range := { path := "hdfs://nn/table/part-0", start_offset := 0, size := 10,
                   isset_file_type := true, file_type := 3 } } : JniReader).get_file_type = 3 ∧
    (sampleReader 2 []).get_file_type = 2 :=
  ⟨(C18_file_type_prefers_split _).1 rfl, (C18_file_type_prefers_split _).2.1 rfl⟩

/-- C19: in all four builders a key of the reader's own initializer list keeps
the reader's value in the final map, also when the source properties have an
entry with the same key; and for a key that the initializer list does not
have, the final map has the properties' entry where the builder merges the
properties (always for discovery, for FILE_S3 only for a scan) and no entry
otherwise. -/
theorem C19_properties_never_override (g : TypeDescriptor → String) (r : JniReader)
    (k : String) :
    (∀ v, ParamMap.find (HiveJNIReader.scan_initializer r) k = some v →
      (HiveJNIReader.init_fetch_table_reader g r).scanner_params.find k = some v) ∧
    (∀ v, ParamMap.find (HiveJNIReader.schema_initializer r) k = some v →
      (HiveJNIReader.init_fetch_table_schema_reader r).scanner_params.find k = some v) ∧
    (∀ v, ParamMap.find (RCBinaryJNIReader.scan_initializer
          (collect_fields g r.file_slot_descs).columns_types r) k = some v →
      (RCBinaryJNIReader.init_fetch_table_reader g r).scanner_params.find k = some v) ∧
    (∀ v, ParamMap.find (RCBinaryJNIReader.schema_initializer r) k = some v →
      (RCBinaryJNIReader.init_fetch_table_schema_reader r).scanner_params.find k = some v) ∧
    (ParamMap.find (HiveJNIReader.scan_initializer r) k = none →
      (HiveJNIReader.init_fetch_table_reader g r).scanner_params.find k =
        if r.get_file_type = TFileType.FILE_S3 then ParamMap.find r.params.properties k
        else none) ∧
    (ParamMap.find (HiveJNIReader.schema_initializer r) k = none →
      (HiveJNIReader.init_fetch_table_schema_reader r).scanner_params.find k =
        ParamMap.find r.params.properties k) ∧
    (ParamMap.find (RCBinaryJNIReader.scan_initializer
          (collect_fields g r.file_slot_descs).columns_types r) k = none →
      (RCBinaryJNIReader.init_fetch_table_reader g r).scanner_params.find k =
        if r.get_file_type = TFileType.FILE_S3 then ParamMap.find r.params.properties k
        else none) ∧
    (ParamMap.find (RCBinaryJNIReader.schema_initializer r) k = none →
      (RCBinaryJNIReader.init_fetch_table_schema_reader r).scanner_params.find k =
        ParamMap.find r.params.properties k) := by
  simp only [hive_scan_find, hive_schema_find, rcbinary_scan_find, rcbinary_schema_find]
  refine ⟨?_, ?_, ?_, ?_, ?_, ?_, ?_, ?_⟩ <;> intro h <;> simp_all

/-- C19, at the sample reader over remote object storage whose source
properties try to set `uri` and `is_get_table_schema` and also carry a new key:
the maps keep the reader's `uri` and flag, and the new key is added. -/
theorem C19_properties_never_override_witness :
    (HiveJNIReader.init_fetch_table_reader sampleJniType
        (sampleReader 2 [("uri", "s3://other/x"), ("s3.secret_key", "SK")])).scanner_params.find
        "uri" = some "s3://bucket/table/part-0" ∧
    (RCBinaryJNIReader.init_fetch_table_schema_reader
        (sampleReader 2 [("is_get_table_schema", "false"),
          ("s3.secret_key", "SK")])).scanner_params.find
        "is_get_table_schema" = some "true" ∧
    (HiveJNIReader.init_fetch_table_schema_reader
        (sampleReader 2 [("uri", "s3://other/x"), ("s3.secret_key", "SK")])).scanner_params.find
        "s3.secret_key" = some "SK" :=
  ⟨(C19_properties_never_override sampleJniType
      (sampleReader 2 [("uri", "s3://other/x"), ("s3.secret_key", "SK")]) "uri").1 _
      (by decide),
    (C19_properties_never_override sampleJniType
      (sampleReader 2 [("is_get_table_schema", "false"), ("s3.secret_key", "SK")])
      "is_get_table_schema").2.2.2.1 _ (by decide),
    ((C19_properties_never_override sampleJniType
      (sampleReader 2 [("uri", "s3://other/x"), ("s3.secret_key", "SK")])
      "s3.secret_key").2.2.2.2.2.1 (by decide)).trans (by decide)⟩

/-- The storage kind is printed in decimal: kind 2 (FILE_S3) gives the text
`2` in the discovery map and in the scan map of the sample reader. -/
theorem sample_file_type_text :
    (HiveJNIReader.init_fetch_table_schema_reader (sampleReader 2 [])).scanner_params.find
        "file_type" = some "2" ∧
    (RCBinaryJNIReader.init_fetch_table_reader sampleJniType
        (sampleReader 2 [])).scanner_params.find "file_type" = some "2" := by
  refine ⟨by decide, by decide⟩

/-! ## Pulling batches: `get_next_block` -/

/-- The reader's `get_next_block` when the connector's call fails: the
connector's status is returned and no further call is made. -/
theorem get_next_block_of_error {σ : Type} (ops : JniConnectorOps σ) (s : Session σ)
    (h : (ops.get_next_block s.connector).1.status.ok = false) :
    (JniReader.get_next_block ops s).status = (ops.get_next_block s.connector).1.status ∧
    (JniReader.get_next_block ops s).session.calls = s.calls ++ [.get_next_block] ∧
    (JniReader.get_next_block ops s).session.connector
      = (ops.get_next_block s.connector).2 := by
  simp [JniReader.get_next_block, h]

/-- The reader's `get_next_block` when the connector's call succeeds with
`eof = true`: `close` is called once, afterwards, and its status returned. -/
theorem get_next_block_of_eof {σ : Type} (ops : JniConnectorOps σ) (s : Session σ)
    (h : (ops.get_next_block s.connector).1.status.ok = true)
    (heof : (ops.get_next_block s.connector).1.eof = true) :
    (JniReader.get_next_block ops s).status
      = (ops.close (ops.get_next_block s.connector).2).1 ∧
    (JniReader.get_next_block ops s).session.calls
      = s.calls ++ [.get_next_block, .close] ∧
    (JniReader.get_next_block ops s).session.connector
      = (ops.close (ops.get_next_block s.connector).2).2 ∧
    (JniReader.get_next_block ops s).eof = true := by
  have e1 : Status.OK.ok = true := rfl
  have e2 : ∀ c m, (Status.error c m).ok = false := fun _ _ => rfl
  cases hc : (ops.close (ops.get_next_block s.connector).2).1 <;>
    simp [JniReader.get_next_block, h, heof, hc, e1, e2]

/-- The reader's `get_next_block` when the connector's call succeeds with
`eof = false`: `OK` is returned and no further call is made. -/
theorem get_next_block_of_more {σ : Type} (ops : JniConnectorOps σ) (s : Session σ)
    (h : (ops.get_next_block s.connector).1.status.ok = true)
    (heof : (ops.get_next_block s.connector).1.eof = false) :
    (JniReader.get_next_block ops s).status = .OK ∧
    (JniReader.get_next_block ops s).session.calls = s.calls ++ [.get_next_block] ∧
    (JniReader.get_next_block ops s).session.connector
      = (ops.get_next_block s.connector).2 ∧
    (JniReader.get_next_block ops s).eof = false := by
  simp [JniReader.get_next_block, h, heof]

/-- C13 as stated fails: on a fresh connector whose `get_next_block` returns an
error, the reader's `get_next_block` returns that error after the single call
`get_next_block`; `close` has not been called. -/
theorem C13_error_path_does_not_close :
    (JniReader.get_next_block
        (sampleOps { status := .error 1 "remote call failed", read_rows := 0, eof := false }
          (.OK, "")) freshSession).status = .error 1 "remote call failed" ∧
    (JniReader.get_next_block
        (sampleOps { status := .error 1 "remote call failed", read_rows := 0, eof := false }
          (.OK, "")) freshSession).session.calls = [.get_next_block] ∧
    ConnectorCall.close ∉ (JniReader.get_next_block
        (sampleOps { status := .error 1 "remote call failed", read_rows := 0, eof := false }
          (.OK, "")) freshSession).session.calls := by
  decide

/-- C13, amended: whenever the connector's `get_next_block` returns an error,
the reader's `get_next_block` returns that error at once, having made no other
call to the connector and leaving the connector in the state in which the
failed call left it: `close` is neither called nor applied on this path. -/
theorem C13_error_is_returned_at_once {σ : Type} (ops : JniConnectorOps σ) (s : Session σ)
    (h : (ops.get_next_block s.connector).1.status.ok = false) :
    JniReader.get_next_block ops s =
      { status := (ops.get_next_block s.connector).1.status,
        read_rows := (ops.get_next_block s.connector).1.read_rows,
        eof := (ops.get_next_block s.connector).1.eof,
        session := { connector := (ops.get_next_block s.connector).2,
                     calls := s.calls ++ [.get_next_block] } } := by
  simp [JniReader.get_next_block, h]

/-- C13 amended, at the failing sample connector with the release flag, after
two earlier calls: the error is returned, the call log gains one
`get_next_block`, and the flag still says that the handle is not released. -/
theorem C13_error_is_returned_at_once_witness :
    JniReader.get_next_block
        (sampleFlagOps
          { status := .error 1 "remote call failed", read_rows := 0, eof := false }
          (.OK, ""))
        { connector := false, calls := [.get_next_block, .get_next_block] } =
      { status := .error 1 "remote call failed", read_rows := 0, eof := false,
        session := { connector := false,
                     calls := [.get_next_block, .get_next_block, .get_next_block] } } :=
  C13_error_is_returned_at_once _ _ (by decide)

/-- C16: whenever the connector's `get_next_block` succeeds with `eof = true`,
the reader's `get_next_block` calls the connector's `close` exactly once, after
that call and before returning, leaves the connector in the state that `close`
produced (the handle is released) and returns the status of `close`; whenever
it succeeds with `eof = false`, `close` is neither called nor applied, the
connector stays as the pull left it, and the reader returns `OK`. -/
theorem C16_end_of_stream_closes (σ : Type) (ops : JniConnectorOps σ) (s : Session σ)
    (h : (ops.get_next_block s.connector).1.status.ok = true) :
    ((ops.get_next_block s.connector).1.eof = true →
      JniReader.get_next_block ops s =
        { status := (ops.close (ops.get_next_block s.connector).2).1,
          read_rows := (ops.get_next_block s.connector).1.read_rows,
          eof := true,
          session := { connector := (ops.close (ops.get_next_block s.connector).2).2,
                       calls := s.calls ++ [.get_next_block, .close] } }) ∧
    ((ops.get_next_block s.connector).1.eof = false →
      JniReader.get_next_block ops s =
        { status := .OK,
          read_rows := (ops.get_next_block s.connector).1.read_rows,
          eof := false,
          session := { connector := (ops.get_next_block s.connector).2,
                       calls := s.calls ++ [.get_next_block] } }) := by
  have e1 : Status.OK.ok = true := rfl
  have e2 : ∀ c m, (Status.error c m).ok = false := fun _ _ => rfl
  constructor
  · intro heof
    cases hc : (ops.close (ops.get_next_block s.connector).2).1 <;>
      simp [JniReader.get_next_block, h, heof, hc, e1, e2]
  · intro heof
    simp [JniReader.get_next_block, h, heof]

/-- C16, at sample connectors with the release flag: after a pull that reports
end-of-stream the calls are `get_next_block`, `close` and the flag says
released; after a pull with more rows the only call is `get_next_block` and
the flag says not released. -/
theorem C16_end_of_stream_closes_witness :
    JniReader.get_next_block
        (sampleFlagOps { status := .OK, read_rows := 0, eof := true } (.OK, ""))
        freshFlagSession =
      { status := .OK, read_rows := 0, eof := true,
        session := { connector := true, calls := [.get_next_block, .close] } } ∧
    JniReader.get_next_block
        (sampleFlagOps { status := .OK, read_rows := 4096, eof := false } (.OK, ""))
        freshFlagSession =
      { status := .OK, read_rows := 4096, eof := false,
        session := { connector := false, calls := [.get_next_block] } } :=
  ⟨(C16_end_of_stream_closes Bool
      (sampleFlagOps { status := .OK, read_rows := 0, eof := true } (.OK, "")) freshFlagSession
      (by decide)).1 (by decide),
    (C16_end_of_stream_closes Bool
      (sampleFlagOps { status := .OK, read_rows := 4096, eof := false } (.OK, ""))
      freshFlagSession (by decide)).2 (by decide)⟩

/-- C17 as stated fails: on a connector that answers every `get_next_block`
with success and `eof = true`, a second `get_next_block` on the reader, made
after the first one returned `eof = true`, is not rejected: it returns `OK` and
has issued a second `get_next_block` call to the connector. -/
theorem C17_call_after_eof_is_forwarded :
    (JniReader.get_next_block
        (sampleOps { status := .OK, read_rows := 0, eof := true } (.OK, ""))
        freshSession).eof = true ∧
    (JniReader.get_next_block
        (sampleOps { status := .OK, read_rows := 0, eof := true } (.OK, ""))
        (JniReader.get_next_block
          (sampleOps { status := .OK, read_rows := 0, eof := true } (.OK, ""))
          freshSession).session).status = .OK ∧
    (JniReader.get_next_block
        (sampleOps { status := .OK, read_rows := 0, eof := true } (.OK, ""))
        (JniReader.get_next_block
          (sampleOps { status := .OK, read_rows := 0, eof := true } (.OK, ""))
          freshSession).session).session.calls
      = [.get_next_block, .close, .get_next_block, .close] := by
  decide

/-- C17, amended: the reader keeps no closed state. Every `get_next_block` call
on a reader, also one made after a call that returned `eof = true`, first
issues a `get_next_block` call to the connector, and it returns an error
exactly when that call returns an error or, at `eof = true`, the following
`close` returns an error. -/
theorem C17_every_call_reaches_the_connector (σ : Type) (ops : JniConnectorOps σ)
    (s : Session σ) :
    (∃ later, (JniReader.get_next_block ops
        (JniReader.get_next_block ops s).session).session.calls
      = (JniReader.get_next_block ops s).session.calls ++ .get_next_block :: later) ∧
    ((JniReader.get_next_block ops s).status.ok = false ↔
      ((ops.get_next_block s.connector).1.status.ok = false ∨
        ((ops.get_next_block s.connector).1.eof = true ∧
          (ops.close (ops.get_next_block s.connector).2).1.ok = false))) := by
  constructor
  · generalize (JniReader.get_next_block ops s).session = s1
    simp only [JniReader.get_next_block]
    split_ifs <;> simp
  · have e1 : Status.OK.ok = true := rfl
    simp only [JniReader.get_next_block]
    split_ifs with h1 h2 h3 <;> simp_all

/-! ## Resolving the schema: `get_parsed_schema` -/

/-- The loop of `get_parsed_schema` over entries whose names are `ns` and whose
converted types are `ts`: the names, as C strings, and the types are appended
in order. -/
theorem parsed_schema_loop_eq (conv : Value → Option TypeDescriptor) :
    ∀ (es : List Value) (ns : List String) (ts : List TypeDescriptor)
      (ns0 : List String) (ts0 : List TypeDescriptor),
      es.map (fun c => stringMember c "name") = ns.map some →
      es.map conv = ts.map some →
      parsed_schema_loop conv es ns0 ts0
        = some (ns0 ++ ns.map std_string, ts0 ++ ts) := by
  intro es
  induction es with
  | nil =>
    intro ns ts ns0 ts0 hn ht
    cases ns <;> cases ts <;> simp_all [parsed_schema_loop]
  | cons c rest ih =>
    intro ns ts ns0 ts0 hn ht
    cases ns with
    | nil => simp at hn
    | cons n ns =>
      cases ts with
      | nil => simp at ht
      | cons t ts =>
        simp only [List.map_cons, List.cons.injEq] at hn ht
        have hn1 : (c.member "name").bind Value.GetString = some n := hn.1
        simp only [parsed_schema_loop, bind, Option.bind_eq_bind]
        rw [← Option.bind_assoc, hn1]
        simp only [Option.some_bind, ht.1]
        rw [ih ns ts _ _ hn.2 ht.2]
        simp

/-- The function `get_parsed_schema` when `get_table_schema` fails: its status
is returned at once; nothing is appended and `close` is not called. -/
theorem get_parsed_schema_of_error {σ : Type} (conv : Value → Option TypeDescriptor)
    (parse : String → Option Value) (ops : JniConnectorOps σ) (s : Session σ)
    (col_names : List String) (col_types : List TypeDescriptor)
    (h : (ops.get_table_schema s.connector).1.1.ok = false) :
    JniReader.get_parsed_schema conv parse ops s col_names col_types =
      some { status := (ops.get_table_schema s.connector).1.1,
             col_names := col_names, col_types := col_types,
             session := { connector := (ops.get_table_schema s.connector).2,
                          calls := s.calls ++ [.get_table_schema] } } := by
  simp [JniReader.get_parsed_schema, h]

/-- The function `get_parsed_schema` when `get_table_schema` succeeds and the
document is not an array: nothing is appended, `close` is called and its status
returned. -/
theorem get_parsed_schema_of_not_array {σ : Type} (conv : Value → Option TypeDescriptor)
    (parse : String → Option Value) (ops : JniConnectorOps σ) (s : Session σ)
    (col_names : List String) (col_types : List TypeDescriptor)
    (h : (ops.get_table_schema s.connector).1.1.ok = true)
    (hdoc : (rapidjson.Document.Parse parse
      (ops.get_table_schema s.connector).1.2).IsArray = false) :
    JniReader.get_parsed_schema conv parse ops s col_names col_types =
      some { status := (ops.close (ops.get_table_schema s.connector).2).1,
             col_names := col_names, col_types := col_types,
             session := { connector := (ops.close (ops.get_table_schema s.connector).2).2,
                          calls := s.calls ++ [.get_table_schema, .close] } } := by
  simp [JniReader.get_parsed_schema, h, hdoc]

/-- The function `get_parsed_schema` when `get_table_schema` succeeds and the
document is the array `es`: the result of the loop, then `close`. -/
theorem get_parsed_schema_of_array {σ : Type} (conv : Value → Option TypeDescriptor)
    (parse : String → Option Value) (ops : JniConnectorOps σ) (s : Session σ)
    (col_names : List String) (col_types : List TypeDescriptor) (es : List Value)
    (h : (ops.get_table_schema s.connector).1.1.ok = true)
    (hdoc : rapidjson.Document.Parse parse (ops.get_table_schema s.connector).1.2
      = .array es) :
    JniReader.get_parsed_schema conv parse ops s col_names col_types =
      (parsed_schema_loop conv es col_names col_types).bind fun out =>
        some { status := (ops.close (ops.get_table_schema s.connector).2).1,
               col_names := out.1, col_types := out.2,
               session := { connector := (ops.close (ops.get_table_schema s.connector).2).2,
                            calls := s.calls ++ [.get_table_schema, .close] } } := by
  simp [JniReader.get_parsed_schema, h, hdoc, Value.IsArray, Value.elements]

theorem map_std_string_of_hasNoNul (ns : List String)
    (h : ∀ n ∈ ns, hasNoNul n = true) : ns.map std_string = ns := by
  induction ns with
  | nil => rfl
  | cons n rest ih =>
    simp only [List.map_cons]
    rw [std_string_of_hasNoNul n (h n (List.mem_cons_self _ _)),
      ih (fun m hm => h m (List.mem_cons_of_mem _ hm))]

/-- C12: if `get_table_schema` succeeds and the schema document is a JSON array
of n entries with the names `ns` that convert to the types `ts` (n well-formed
entries), then `get_parsed_schema` of either reader appends exactly n names
and these n types to its outputs, in the order of the entries, closes the
connector and returns the status of `close`. The i-th appended name is the
i-th entry's `name` as the C string that `push_back` receives: the name itself
whenever the names have no embedded NUL character. -/
theorem C12_parsed_schema_in_wire_order (σ : Type) (parse : String → Option Value)
    (ops : JniConnectorOps σ) (s : Session σ) (col_names : List String)
    (col_types : List TypeDescriptor) (es : List Value) (ns : List String)
    (hget : (ops.get_table_schema s.connector).1.1.ok = true)
    (hdoc : rapidjson.Document.Parse parse (ops.get_table_schema s.connector).1.2
      = .array es)
    (hnames : es.map (fun c => stringMember c "name") = ns.map some) :
    ns.length = es.length ∧
    (∀ ts, es.map HiveJNIReader.convert_to_doris_type = ts.map some →
      ts.length = es.length ∧
      HiveJNIReader.get_parsed_schema parse ops s col_names col_types =
        some { status := (ops.close (ops.get_table_schema s.connector).2).1,
               col_names := col_names ++ ns.map std_string, col_types := col_types ++ ts,
               session := { connector := (ops.close (ops.get_table_schema s.connector).2).2,
                            calls := s.calls ++ [.get_table_schema, .close] } } ∧
      ((∀ n ∈ ns, hasNoNul n = true) →
        HiveJNIReader.get_parsed_schema parse ops s col_names col_types =
          some { status := (ops.close (ops.get_table_schema s.connector).2).1,
                 col_names := col_names ++ ns, col_types := col_types ++ ts,
                 session := { connector := (ops.close (ops.get_table_schema s.connector).2).2,
                              calls := s.calls ++ [.get_table_schema, .close] } })) ∧
    (∀ ts, es.map RCBinaryJNIReader.convert_to_doris_type = ts.map some →
      ts.length = es.length ∧
      RCBinaryJNIReader.get_parsed_schema parse ops s col_names col_types =
        some { status := (ops.close (ops.get_table_schema s.connector).2).1,
               col_names := col_names ++ ns.map std_string, col_types := col_types ++ ts,
               session := { connector := (ops.close (ops.get_table_schema s.connector).2).2,
                            calls := s.calls ++ [.get_table_schema, .close] } } ∧
      ((∀ n ∈ ns, hasNoNul n = true) →
        RCBinaryJNIReader.get_parsed_schema parse ops s col_names col_types =
          some { status := (ops.close (ops.get_table_schema s.connector).2).1,
                 col_names := col_names ++ ns, col_types := col_types ++ ts,
                 session := { connector := (ops.close (ops.get_table_schema s.connector).2).2,
                              calls := s.calls ++ [.get_table_schema, .close] } })) := by
  refine ⟨?_, ?_, ?_⟩
  · have := congrArg List.length hnames
    simpa using this.symm
  · intro ts hts
    have hres : HiveJNIReader.get_parsed_schema parse ops s col_names col_types =
        some { status := (ops.close (ops.get_table_schema s.connector).2).1,
               col_names := col_names ++ ns.map std_string, col_types := col_types ++ ts,
               session := { connector := (ops.close (ops.get_table_schema s.connector).2).2,
                            calls := s.calls ++ [.get_table_schema, .close] } } := by
      rw [HiveJNIReader.get_parsed_schema, get_parsed_schema_of_array _ _ _ _ _ _ es hget hdoc,
        parsed_schema_loop_eq _ es ns ts _ _ hnames hts]
      rfl
    refine ⟨?_, hres, ?_⟩
    · have := congrArg List.length hts
      simpa using this.symm
    · intro hnul
      rw [hres, map_std_string_of_hasNoNul ns hnul]
  · intro ts hts
    have hres : RCBinaryJNIReader.get_parsed_schema parse ops s col_names col_types =
        some { status := (ops.close (ops.get_table_schema s.connector).2).1,
               col_names := col_names ++ ns.map std_string, col_types := col_types ++ ts,
               session := { connector := (ops.close (ops.get_table_schema s.connector).2).2,
                            calls := s.calls ++ [.get_table_schema, .close] } } := by
      rw [RCBinaryJNIReader.get_parsed_schema,
        get_parsed_schema_of_array _ _ _ _ _ _ es hget hdoc,
        parsed_schema_loop_eq _ es ns ts _ _ hnames hts]
      rfl
    refine ⟨?_, hres, ?_⟩
    · have := congrArg List.length hts
      simpa using this.symm
    · intro hnul
      rw [hres, map_std_string_of_hasNoNul ns hnul]

theorem sampleSchema_hive_types :
    [sampleIdEntry, sampleTagsEntry, sampleMetaEntry].map
        HiveJNIReader.convert_to_doris_type = sampleSchemaTypes.map some := by
  have hid : HiveJNIReader.convert_to_doris_type sampleIdEntry
      = some (TypeDescriptor.ofPrimitive .TYPE_STRING) := by
    rw [hive_convert_scalar (t := 23) (p := 0) (s := 0) (by decide) (by decide) (by decide)
      (by decide)]
    rfl
  have hel : HiveJNIReader.convert_to_doris_type
      (.object [("name", .string "element"), ("type", .int 23), ("precision", .int 0),
        ("scale", .int 0)]) = some (TypeDescriptor.ofPrimitive .TYPE_STRING) := by
    rw [hive_convert_scalar (t := 23) (p := 0) (s := 0) (by decide) (by decide) (by decide)
      (by decide)]
    rfl
  have hval : HiveJNIReader.convert_to_doris_type
      (.object [("name", .string "value"), ("type", .int 5), ("precision", .int 0),
        ("scale", .int 0)]) = some (TypeDescriptor.ofPrimitive .TYPE_INT) := by
    rw [hive_convert_scalar (t := 5) (p := 0) (s := 0) (by decide) (by decide) (by decide)
      (by decide)]
    rfl
  have htags : HiveJNIReader.convert_to_doris_type sampleTagsEntry
      = some ((TypeDescriptor.ofPrimitive .TYPE_ARRAY).add_sub_type
          (TypeDescriptor.ofPrimitive .TYPE_STRING)) := by
    have hcc : sampleTagsEntry.member "childColumns" = some (.array [
        .object [("name", .string "element"), ("type", .int 23), ("precision", .int 0),
          ("scale", .int 0)]]) := by rfl
    have h0 : (Value.array [
        .object [("name", .string "element"), ("type", .int 23), ("precision", .int 0),
          ("scale", .int 0)]]).index 0 = some
        (.object [("name", .string "element"), ("type", .int 23), ("precision", .int 0),
          ("scale", .int 0)]) := by rfl
    rw [hive_convert_container (t := TPrimitiveType.ARRAY) (p := 0) (s := 0) (by decide)
      (by decide) (by decide) (by decide) (by decide),
      containerCases_array _ _ hcc h0, hel]
    rfl
  have hmeta : HiveJNIReader.convert_to_doris_type sampleMetaEntry
      = some (mapOfString (TypeDescriptor.ofPrimitive .TYPE_INT)) := by
    have hcc : sampleMetaEntry.member "childColumns" = some (.array [
        .object [("name", .string "key"), ("type", .int 23), ("precision", .int 0),
          ("scale", .int 0)],
        .object [("name", .string "value"), ("type", .int 5), ("precision", .int 0),
          ("scale", .int 0)]]) := by rfl
    have h1 : (Value.array [
        .object [("name", .string "key"), ("type", .int 23), ("precision", .int 0),
          ("scale", .int 0)],
        .object [("name", .string "value"), ("type", .int 5), ("precision", .int 0),
          ("scale", .int 0)]]).index 1 = some
        (.object [("name", .string "value"), ("type", .int 5), ("precision", .int 0),
          ("scale", .int 0)]) := by rfl
    rw [hive_convert_container (t := TPrimitiveType.MAP) (p := 0) (s := 0) (by decide)
      (by decide) (by decide) (by decide) (by decide),
      containerCases_map _ _ hcc h1, hval]
    rfl
  simp only [List.map_cons, List.map_nil, hid, htags, hmeta, sampleSchemaTypes]

theorem sampleSchema_rcbinary_types :
    [sampleIdEntry, sampleTagsEntry, sampleMetaEntry].map
        RCBinaryJNIReader.convert_to_doris_type = sampleSchemaTypes.map some := by
  have hid : RCBinaryJNIReader.convert_to_doris_type sampleIdEntry
      = some (TypeDescriptor.ofPrimitive .TYPE_STRING) := by
    rw [rcbinary_convert_scalar (t := 23) (by decide) (by decide)]
    rfl
  have hel : RCBinaryJNIReader.convert_to_doris_type
      (.object [("name", .string "element"), ("type", .int 23), ("precision", .int 0),
        ("scale", .int 0)]) = some (TypeDescriptor.ofPrimitive .TYPE_STRING) := by
    rw [rcbinary_convert_scalar (t := 23) (by decide) (by decide)]
    rfl
  have hval : RCBinaryJNIReader.convert_to_doris_type
      (.object [("name", .string "value"), ("type", .int 5), ("precision", .int 0),
        ("scale", .int 0)]) = some (TypeDescriptor.ofPrimitive .TYPE_INT) := by
    rw [rcbinary_convert_scalar (t := 5) (by decide) (by decide)]
    rfl
  have htags : RCBinaryJNIReader.convert_to_doris_type sampleTagsEntry
      = some ((TypeDescriptor.ofPrimitive .TYPE_ARRAY).add_sub_type
          (TypeDescriptor.ofPrimitive .TYPE_STRING)) := by
    have hcc : sampleTagsEntry.member "childColumns" = some (.array [
        .object [("name", .string "element"), ("type", .int 23), ("precision", .int 0),
          ("scale", .int 0)]]) := by rfl
    have h0 : (Value.array [
        .object [("name", .string "element"), ("type", .int 23), ("precision", .int 0),
          ("scale", .int 0)]]).index 0 = some
        (.object [("name", .string "element"), ("type", .int 23), ("precision", .int 0),
          ("scale", .int 0)]) := by rfl
    rw [rcbinary_convert_container (t := TPrimitiveType.ARRAY) (by decide) (by decide),
      containerCases_array _ _ hcc h0, hel]
    rfl
  have hmeta : RCBinaryJNIReader.convert_to_doris_type sampleMetaEntry
      = some (mapOfString (TypeDescriptor.ofPrimitive .TYPE_INT)) := by
    have hcc : sampleMetaEntry.member "childColumns" = some (.array [
        .object [("name", .string "key"), ("type", .int 23), ("precision", .int 0),
          ("scale", .int 0)],
        .object [("name", .string "value"), ("type", .int 5), ("precision", .int 0),
          ("scale", .int 0)]]) := by rfl
    have h1 : (Value.array [
        .object [("name", .string "key"), ("type", .int 23), ("precision", .int 0),
          ("scale", .int 0)],
        .object [("name", .string "value"), ("type", .int 5), ("precision", .int 0),
          ("scale", .int 0)]]).index 1 = some
        (.object [("name", .string "value"), ("type", .int 5), ("precision", .int 0),
          ("scale", .int 0)]) := by rfl
    rw [rcbinary_convert_container (t := TPrimitiveType.MAP) (by decide) (by decide),
      containerCases_map _ _ hcc h1, hval]
    rfl
  simp only [List.map_cons, List.map_nil, hid, htags, hmeta, sampleSchemaTypes]

theorem sampleSchema_parsed :
    rapidjson.Document.Parse sampleParse sampleSchemaText
      = .array [sampleIdEntry, sampleTagsEntry, sampleMetaEntry] := by
  simp [rapidjson.Document.Parse, sampleParse, sampleSchemaDocument]

/-- C12, at the sample schema document `[id: string, tags: array(string child),
meta: map(children string, int)]`: both readers resolve it to the names
`[id, tags, meta]` and the types `[string, array(string), map(string, int)]`. -/
theorem C12_parsed_schema_in_wire_order_witness :
    HiveJNIReader.get_parsed_schema sampleParse
        (sampleOps { status := .OK, read_rows := 0, eof := true } (.OK, sampleSchemaText))
        freshSession [] [] =
      some { status := .OK, col_names := ["id", "tags", "meta"],
             col_types := sampleSchemaTypes,
             session := { connector := (), calls := [.get_table_schema, .close] } } ∧
    RCBinaryJNIReader.get_parsed_schema sampleParse
        (sampleOps { status := .OK, read_rows := 0, eof := true } (.OK, sampleSchemaText))
        freshSession [] [] =
      some { status := .OK, col_names := ["id", "tags", "meta"],
             col_types := sampleSchemaTypes,
             session := { connector := (), calls := [.get_table_schema, .close] } } :=
  have h := C12_parsed_schema_in_wire_order Unit sampleParse
    (sampleOps { status := .OK, read_rows := 0, eof := true } (.OK, sampleSchemaText))
    freshSession [] [] [sampleIdEntry, sampleTagsEntry, sampleMetaEntry]
    ["id", "tags", "meta"] (by decide) sampleSchema_parsed (by decide)
  ⟨(h.2.1 sampleSchemaTypes sampleSchema_hive_types).2.2 (by decide),
    (h.2.2 sampleSchemaTypes sampleSchema_rcbinary_types).2.2 (by decide)⟩


/-- C14 as stated fails: when `get_table_schema` returns an error,
`get_parsed_schema` (here of the Hive reader, on a fresh connector) returns
that error after the single call `get_table_schema`; `close` has not been
called. -/
theorem C14_schema_error_path_does_not_close :
    HiveJNIReader.get_parsed_schema sampleParse
        (sampleOps { status := .OK, read_rows := 0, eof := true }
          (.error 2 "schema fetch failed", "")) freshSession [] [] =
      some { status := .error 2 "schema fetch failed", col_names := [], col_types := [],
             session := { connector := (), calls := [.get_table_schema] } } ∧
    ConnectorCall.close ∉ [ConnectorCall.get_table_schema] :=
  ⟨get_parsed_schema_of_error _ _ _ _ _ _ (by decide), by decide⟩

/-- C14, amended: `get_parsed_schema` (of either reader: `conv` is the reader's
converter) calls the connector's `close` exactly once, as its last call to the
connector, and returns the status of `close`, on every path on which
`get_table_schema` succeeded; it returns on such a path whenever the document
is not an array (a text that does not parse included) and whenever it is an
array of well-formed entries. When `get_table_schema` returns an error,
`get_parsed_schema` returns that error at once and does not call `close`. -/
theorem C14_close_once_after_schema_fetch (σ : Type) (conv : Value → Option TypeDescriptor)
    (parse : String → Option Value) (ops : JniConnectorOps σ) (s : Session σ)
    (col_names : List String) (col_types : List TypeDescriptor) :
    ((ops.get_table_schema s.connector).1.1.ok = false →
      JniReader.get_parsed_schema conv parse ops s col_names col_types =
        some { status := (ops.get_table_schema s.connector).1.1,
               col_names := col_names, col_types := col_types,
               session := { connector := (ops.get_table_schema s.connector).2,
                            calls := s.calls ++ [.get_table_schema] } }) ∧
    ((ops.get_table_schema s.connector).1.1.ok = true →
      (∀ r, JniReader.get_parsed_schema conv parse ops s col_names col_types = some r →
        r.session.calls = s.calls ++ [.get_table_schema, .close] ∧
        r.status = (ops.close (ops.get_table_schema s.connector).2).1) ∧
      ((rapidjson.Document.Parse parse (ops.get_table_schema s.connector).1.2).IsArray
          = false →
        (JniReader.get_parsed_schema conv parse ops s col_names col_types).isSome) ∧
      (∀ es, rapidjson.Document.Parse parse (ops.get_table_schema s.connector).1.2
          = .array es →
        (∀ c ∈ es, (stringMember c "name").isSome ∧ (conv c).isSome) →
        (JniReader.get_parsed_schema conv parse ops s col_names col_types).isSome)) := by
  refine ⟨get_parsed_schema_of_error conv parse ops s col_names col_types, ?_⟩
  intro h
  refine ⟨?_, ?_, ?_⟩
  · intro r hr
    simp only [JniReader.get_parsed_schema, h, Bool.not_true, Bool.false_eq_true, if_false,
      Option.bind_eq_some] at hr
    obtain ⟨out, _, hout⟩ := hr
    simp only [Option.some.injEq] at hout
    subst hout
    simp
  · intro hdoc
    rw [get_parsed_schema_of_not_array conv parse ops s col_names col_types h hdoc]
    rfl
  · intro es hdoc hwf
    have hn : ∃ ns : List String, es.map (fun c => stringMember c "name") = ns.map some := by
      clear hdoc
      induction es with
      | nil => exact ⟨[], rfl⟩
      | cons c rest ih =>
        obtain ⟨ns, hns⟩ := ih (fun d hd => hwf d (List.mem_cons_of_mem _ hd))
        obtain ⟨n, hn⟩ := Option.isSome_iff_exists.mp (hwf c (List.mem_cons_self _ _)).1
        exact ⟨n :: ns, by simp [hn, hns]⟩
    have ht : ∃ ts : List TypeDescriptor, es.map conv = ts.map some := by
      clear hdoc hn
      induction es with
      | nil => exact ⟨[], rfl⟩
      | cons c rest ih =>
        obtain ⟨ts, hts⟩ := ih (fun d hd => hwf d (List.mem_cons_of_mem _ hd))
        obtain ⟨t, ht⟩ := Option.isSome_iff_exists.mp (hwf c (List.mem_cons_self _ _)).2
        exact ⟨t :: ts, by simp [ht, hts]⟩
    obtain ⟨ns, hn⟩ := hn
    obtain ⟨ts, ht⟩ := ht
    rw [get_parsed_schema_of_array conv parse ops s col_names col_types es h hdoc,
      parsed_schema_loop_eq conv es ns ts _ _ hn ht]
    rfl

/-- C14 amended, at the sample connector whose schema text is the empty
object: the Hive reader's `get_parsed_schema` returns with the calls
`get_table_schema`, `close` and the status of `close`. -/
theorem C14_close_once_after_schema_fetch_witness :
    ∃ r, HiveJNIReader.get_parsed_schema sampleParse
        (sampleOps { status := .OK, read_rows := 0, eof := true } (.OK, "\x7b\x7d"))
        freshSession [] [] = some r ∧
      r.session.calls = [.get_table_schema, .close] ∧ r.status = .OK :=
  have h := (C14_close_once_after_schema_fetch Unit HiveJNIReader.convert_to_doris_type
    sampleParse (sampleOps { status := .OK, read_rows := 0, eof := true } (.OK, "\x7b\x7d"))
    freshSession [] []).2 (by decide)
  have hsome := h.2.1 (by decide)
  match hr : JniReader.get_parsed_schema HiveJNIReader.convert_to_doris_type sampleParse
      (sampleOps { status := .OK, read_rows := 0, eof := true } (.OK, "\x7b\x7d"))
      freshSession [] [], hsome with
  | some r, _ => ⟨r, hr, h.1 r hr⟩

/-- C15 as stated fails: when the schema text is not JSON, and when it is a JSON
object, `get_parsed_schema` (here of the Hive reader, with a connector whose
`close` succeeds) returns `OK` with empty name and type sequences. -/
theorem C15_malformed_document_is_accepted :
    HiveJNIReader.get_parsed_schema sampleParse
        (sampleOps { status := .OK, read_rows := 0, eof := true } (.OK, "not json"))
        freshSession [] [] =
      some { status := .OK, col_names := [], col_types := [],
             session := { connector := (), calls := [.get_table_schema, .close] } } ∧
    HiveJNIReader.get_parsed_schema sampleParse
        (sampleOps { status := .OK, read_rows := 0, eof := true } (.OK, "\x7b\x7d"))
        freshSession [] [] =
      some { status := .OK, col_names := [], col_types := [],
             session := { connector := (), calls := [.get_table_schema, .close] } } :=
  ⟨get_parsed_schema_of_not_array _ _ _ _ _ _ (by decide) (by decide),
    get_parsed_schema_of_not_array _ _ _ _ _ _ (by decide) (by decide)⟩

/-- C15, amended: when `get_table_schema` succeeds and its text does not parse
or parses to a value that is not an array (an object, for one),
`get_parsed_schema` (of either reader: `conv` is the reader's converter)
reports no error of its own: it appends nothing to the name and type
sequences, calls `close` and returns the status of `close`, which is success
whenever `close` succeeds. -/
theorem C15_non_array_document_yields_empty_schema (σ : Type)
    (conv : Value → Option TypeDescriptor) (parse : String → Option Value)
    (ops : JniConnectorOps σ) (s : Session σ) (col_names : List String)
    (col_types : List TypeDescriptor)
    (hget : (ops.get_table_schema s.connector).1.1.ok = true)
    (hdoc : parse (ops.get_table_schema s.connector).1.2 = none ∨
      (rapidjson.Document.Parse parse (ops.get_table_schema s.connector).1.2).IsArray
        = false) :
    JniReader.get_parsed_schema conv parse ops s col_names col_types =
      some { status := (ops.close (ops.get_table_schema s.connector).2).1,
             col_names := col_names, col_types := col_types,
             session := { connector := (ops.close (ops.get_table_schema s.connector).2).2,
                          calls := s.calls ++ [.get_table_schema, .close] } } := by
  apply get_parsed_schema_of_not_array conv parse ops s col_names col_types hget
  rcases hdoc with hdoc | hdoc
  · simp [rapidjson.Document.Parse, hdoc, Value.IsArray]
  · exact hdoc

/-- C15 amended, at the sample connector whose schema text is not JSON, for the
RC-binary reader with outputs that already hold one column. -/
theorem C15_non_array_document_yields_empty_schema_witness :
    RCBinaryJNIReader.get_parsed_schema sampleParse
        (sampleOps { status := .OK, read_rows := 0, eof := true } (.OK, "not json"))
        freshSession ["id"] [TypeDescriptor.ofPrimitive .TYPE_STRING] =
      some { status := .OK, col_names := ["id"],
             col_types := [TypeDescriptor.ofPrimitive .TYPE_STRING],
             session := { connector := (), calls := [.get_table_schema, .close] } } :=
  C15_non_array_document_yields_empty_schema Unit RCBinaryJNIReader.convert_to_doris_type
    sampleParse (sampleOps { status := .OK, read_rows := 0, eof := true } (.OK, "not json"))
    freshSession ["id"] [TypeDescriptor.ofPrimitive .TYPE_STRING] (by decide)
    (Or.inl (by rfl))


/-! ## Unsupported tags inside containers -/

theorem hive_convert_unsupported {e : Value} {t : Int} (hr : carriesPrecisionScale e)
    (ht : intMember e "type" = some t) (hn : t ∉ HiveJNIReader.handledTags) :
    HiveJNIReader.convert_to_doris_type e
      = some (TypeDescriptor.ofPrimitive .INVALID_TYPE) := by
  obtain ⟨p, hp⟩ := Option.isSome_iff_exists.mp hr.1
  obtain ⟨s, hs⟩ := Option.isSome_iff_exists.mp hr.2
  simp only [HiveJNIReader.handledTags, List.mem_append, not_or] at hn
  rw [hive_convert_container ht hp hs hn.1.1 hn.1.2, containerCases_other _ _ _ hn.2]

theorem rcbinary_convert_unsupported {e : Value} {t : Int}
    (ht : intMember e "type" = some t) (hn : t ∉ RCBinaryJNIReader.handledTags) :
    RCBinaryJNIReader.convert_to_doris_type e
      = some (TypeDescriptor.ofPrimitive .INVALID_TYPE) := by
  simp only [RCBinaryJNIReader.handledTags, List.mem_append, not_or] at hn
  rw [rcbinary_convert_container ht hn.1, containerCases_other _ _ _ hn.2]

/-- A struct loop returns a type of the kind it started from. -/
theorem struct_loop_type (conv : Value → Option TypeDescriptor)
    (loop : TypeDescriptor → List Value → Option TypeDescriptor)
    (hnil : ∀ st, loop st [] = some st)
    (hcons : ∀ st c rest, loop st (c :: rest) =
      (conv c).bind fun t => (stringMember c "name").bind fun n =>
        loop (st.add_sub_type_named t (std_string n)) rest) :
    ∀ (cs : List Value) (st td : TypeDescriptor), loop st cs = some td →
      td.type = st.type := by
  intro cs
  induction cs with
  | nil =>
    intro st td h
    rw [hnil] at h
    cases h; rfl
  | cons c rest ih =>
    intro st td h
    rw [hcons] at h
    cases hc : conv c with
    | none => simp [hc] at h
    | some t =>
      cases hn : stringMember c "name" with
      | none => simp [hc, hn] at h
      | some n =>
        simp only [hc, hn, Option.some_bind] at h
        have := ih _ td h
        simpa [TypeDescriptor.add_sub_type_named] using this

theorem container_not_scalar : ∀ t ∈ containerTags,
    t ∉ HiveJNIReader.scalarTags ∧ t ∉ decimalTags ∧ t ∉ RCBinaryJNIReader.scalarTags := by
  decide

/-- A result of the shared container cases is of kind INVALID exactly when the
tag is none of ARRAY, MAP, STRUCT. -/
theorem containerCases_invalid_iff (conv : Value → Option TypeDescriptor)
    (loop : TypeDescriptor → List Value → Option TypeDescriptor)
    (hloop : ∀ (cs : List Value) (st td : TypeDescriptor), loop st cs = some td →
      td.type = st.type)
    (e : Value) (t : Int) (td : TypeDescriptor)
    (h : containerCases conv loop e t = some td) :
    td.type = .INVALID_TYPE ↔ t ∉ containerTags := by
  by_cases ha : t = TPrimitiveType.ARRAY
  · subst ha
    have hmem : TPrimitiveType.ARRAY ∈ containerTags := by decide
    simp only [containerCases, if_true, Option.bind_eq_some, Option.some.injEq] at h
    obtain ⟨cc, _, c0, _, t0, _, htd⟩ := h
    subst htd
    simp [hmem, TypeDescriptor.add_sub_type, TypeDescriptor.ofPrimitive]
  · by_cases hm : t = TPrimitiveType.MAP
    · subst hm
      have hmem : TPrimitiveType.MAP ∈ containerTags := by decide
      simp only [containerCases, if_neg ha, if_true, Option.bind_eq_some,
        Option.some.injEq] at h
      obtain ⟨cc, _, c1, _, t0, _, htd⟩ := h
      subst htd
      simp [hmem, TypeDescriptor.add_sub_type, TypeDescriptor.ofPrimitive]
    · by_cases hs : t = TPrimitiveType.STRUCT
      · subst hs
        have hmem : TPrimitiveType.STRUCT ∈ containerTags := by decide
        simp only [containerCases, if_neg ha, if_neg hm, if_true, Option.bind_eq_some] at h
        obtain ⟨cc, _, cs, _, hl⟩ := h
        have := hloop cs _ td hl
        simp [hmem, this, TypeDescriptor.ofPrimitive]
      · have hn : t ∉ containerTags := by simp [containerTags, ha, hm, hs]
        rw [containerCases_other _ _ _ hn] at h
        simp only [Option.some.injEq] at h
        subst h
        simp [hn, TypeDescriptor.ofPrimitive]

theorem hive_scalar_not_invalid : ∀ t ∈ HiveJNIReader.scalarTags,
    thrift_to_type t ≠ .INVALID_TYPE := by
  decide

theorem hive_invalid_iff (e : Value) (t : Int) (td : TypeDescriptor)
    (ht : intMember e "type" = some t)
    (h : HiveJNIReader.convert_to_doris_type e = some td) :
    td.type = .INVALID_TYPE ↔ t ∉ HiveJNIReader.handledTags := by
  rw [hive_convert_eq, ht] at h
  simp only [Option.some_bind, Option.bind_eq_some] at h
  obtain ⟨p, _, s, _, h⟩ := h
  by_cases h1 : t ∈ HiveJNIReader.scalarTags
  · rw [if_pos h1] at h
    simp only [Option.some.injEq] at h
    subst h
    simp [HiveJNIReader.handledTags, h1, TypeDescriptor.ofPrimitive,
      hive_scalar_not_invalid t h1]
  · by_cases h2 : t ∈ decimalTags
    · rw [if_neg h1, if_pos h2] at h
      simp only [Option.some.injEq] at h
      subst h
      simp [HiveJNIReader.handledTags, h2, TypeDescriptor.create_decimalv3_type]
    · rw [if_neg h1, if_neg h2] at h
      rw [containerCases_invalid_iff _ _
        (struct_loop_type _ _ hive_struct_children_nil hive_struct_children_cons) e t td h]
      simp [HiveJNIReader.handledTags, h1, h2]

theorem rcbinary_invalid_iff (e : Value) (t : Int) (td : TypeDescriptor)
    (ht : intMember e "type" = some t)
    (h : RCBinaryJNIReader.convert_to_doris_type e = some td) :
    td.type = .INVALID_TYPE ↔ t ∉ RCBinaryJNIReader.handledTags := by
  rw [rcbinary_convert_eq, ht] at h
  simp only [Option.some_bind] at h
  by_cases h1 : t ∈ RCBinaryJNIReader.scalarTags
  · rw [if_pos h1] at h
    simp only [Option.some.injEq] at h
    subst h
    simp [RCBinaryJNIReader.handledTags, h1, TypeDescriptor.ofPrimitive,
      hive_scalar_not_invalid t (rc_scalar_is_hive_scalar t h1)]
  · rw [if_neg h1] at h
    rw [containerCases_invalid_iff _ _
      (struct_loop_type _ _ rcbinary_struct_children_nil rcbinary_struct_children_cons)
      e t td h]
    simp [RCBinaryJNIReader.handledTags, h1]

/-- The container half of `KeepsUnsupportedChild`, for a converter that is the
shared container cases on container tags and returns INVALID on the child. -/
theorem keeps_unsupported_in_containers (conv : Value → Option TypeDescriptor)
    (loop : TypeDescriptor → List Value → Option TypeDescriptor)
    (hnil : ∀ st, loop st [] = some st)
    (hcons : ∀ st c rest, loop st (c :: rest) =
      (conv c).bind fun t => (stringMember c "name").bind fun n =>
        loop (st.add_sub_type_named t (std_string n)) rest)
    (e c : Value)
    (hconv : ∀ t ∈ containerTags, intMember e "type" = some t →
      conv e = containerCases conv loop e t)
    (hc : conv c = some (TypeDescriptor.ofPrimitive .INVALID_TYPE)) :
    (intMember e "type" = some TPrimitiveType.ARRAY →
      (e.member "childColumns").bind (fun cc => cc.index 0) = some c →
      conv e = some ((TypeDescriptor.ofPrimitive .TYPE_ARRAY).add_sub_type
        (TypeDescriptor.ofPrimitive .INVALID_TYPE))) ∧
    (intMember e "type" = some TPrimitiveType.MAP →
      (e.member "childColumns").bind (fun cc => cc.index 1) = some c →
      conv e = some (mapOfString (TypeDescriptor.ofPrimitive .INVALID_TYPE))) ∧
    (∀ (cs : List Value) (i : Nat), intMember e "type" = some TPrimitiveType.STRUCT →
      e.member "childColumns" = some (.array cs) →
      (∀ d ∈ cs, (conv d).isSome ∧ (stringMember d "name").isSome) →
      cs[i]? = some c →
      ∃ td, conv e = some td ∧ td.type = .TYPE_STRUCT ∧
        td.children.length = cs.length ∧
        td.children[i]? = some (TypeDescriptor.ofPrimitive .INVALID_TYPE)) := by
  refine ⟨?_, ?_, ?_⟩
  · intro ht hch
    simp only [Option.bind_eq_some] at hch
    obtain ⟨cc, hcc, h0⟩ := hch
    rw [hconv _ (by decide) ht, containerCases_array _ _ hcc h0, hc]
    rfl
  · intro ht hch
    simp only [Option.bind_eq_some] at hch
    obtain ⟨cc, hcc, h1⟩ := hch
    rw [hconv _ (by decide) ht, containerCases_map _ _ hcc h1, hc]
    rfl
  · intro cs i ht hcc hwf hi
    rw [hconv _ (by decide) ht, containerCases_struct _ _ hcc]
    obtain ⟨td, htd, hty, hlen, _, hidx⟩ := struct_loop_isStructOf conv loop hnil hcons cs hwf
    refine ⟨td, htd, hty, hlen, ?_⟩
    obtain ⟨_, ⟨t0, ht0, hchild⟩⟩ := hidx i c hi
    rw [hc] at ht0
    cases ht0
    exact hchild

/-- C20: in both readers an unsupported tag nested in a container neither fails
nor invalidates the container. For an entry `e` with a child `c` of
unsupported tag in a converted position: an ARRAY entry converts to
array(INVALID), a MAP entry with `c` as its value child converts to
map(STRING, INVALID), and a STRUCT entry of well-formed children converts to a
struct that has INVALID at the position of `c`; and whenever a conversion
succeeds, its result is of kind INVALID if and only if the entry's own tag is
none of the converter's case labels. (For the Hive reader the entries carry
`precision` and `scale`, which its converter reads first.) -/
theorem C20_unsupported_child_kept :
    KeepsUnsupportedChild HiveJNIReader.convert_to_doris_type HiveJNIReader.handledTags
      carriesPrecisionScale ∧
    KeepsUnsupportedChild RCBinaryJNIReader.convert_to_doris_type
      RCBinaryJNIReader.handledTags (fun _ => True) := by
  refine ⟨⟨?_, hive_invalid_iff⟩, ⟨?_, rcbinary_invalid_iff⟩⟩
  · intro e c t hre hrc htc hn
    obtain ⟨p, hp⟩ := Option.isSome_iff_exists.mp hre.1
    obtain ⟨s, hs⟩ := Option.isSome_iff_exists.mp hre.2
    refine keeps_unsupported_in_containers _ _ hive_struct_children_nil
      hive_struct_children_cons e c ?_ (hive_convert_unsupported hrc htc hn)
    intro t2 ht2 hte
    have hk := container_not_scalar t2 ht2
    exact hive_convert_container hte hp hs hk.1 hk.2.1
  · intro e c t _ _ htc hn
    refine keeps_unsupported_in_containers _ _ rcbinary_struct_children_nil
      rcbinary_struct_children_cons e c ?_ (rcbinary_convert_unsupported htc hn)
    intro t2 ht2 hte
    exact rcbinary_convert_container hte (container_not_scalar t2 ht2).2.2

/-- C20, at the sample array whose element child has the unsupported tag HLL:
both readers return array(INVALID), whose kind is not INVALID. -/
theorem C20_unsupported_child_kept_witness :
    HiveJNIReader.convert_to_doris_type sampleArrayOfUnsupported
      = some ((TypeDescriptor.ofPrimitive .TYPE_ARRAY).add_sub_type
          (TypeDescriptor.ofPrimitive .INVALID_TYPE)) ∧
    RCBinaryJNIReader.convert_to_doris_type sampleArrayOfUnsupported
      = some ((TypeDescriptor.ofPrimitive .TYPE_ARRAY).add_sub_type
          (TypeDescriptor.ofPrimitive .INVALID_TYPE)) ∧
    ((TypeDescriptor.ofPrimitive .TYPE_ARRAY).add_sub_type
        (TypeDescriptor.ofPrimitive .INVALID_TYPE)).type ≠ .INVALID_TYPE :=
  have hh := (C20_unsupported_child_kept.1.1 sampleArrayOfUnsupported
    (.object [("name", .string "element"), ("type", .int 16), ("precision", .int 0),
      ("scale", .int 0)]) 16 ⟨by decide, by decide⟩ ⟨by decide, by decide⟩ (by decide)
    (by decide)).1 (by decide) (by rfl)
  have hr := (C20_unsupported_child_kept.2.1 sampleArrayOfUnsupported
    (.object [("name", .string "element"), ("type", .int 16), ("precision", .int 0),
      ("scale", .int 0)]) 16 trivial trivial (by decide) (by decide)).1 (by decide) (by rfl)
  ⟨hh, hr, fun h => by
    have := (C20_unsupported_child_kept.1.2 sampleArrayOfUnsupported 20 _ (by decide) hh).mp h
    exact this (by decide)⟩

end doris
